import Mathlib

/-!
# Verification of the spaceship arcade-shooter simulation core

A shallow embedding, in Lean 4, of the fixed-step simulation core of the
`spaceship` repository: the generic object pool (`src/utils/ObjectPool.ts`),
the entity classes (`src/entities/*.ts`), the circle-based collision system
(`src/systems/collision.ts`), and the game loop's per-tick update logic
(`src/core/loop.ts`).

JavaScript `number`s are modelled as real numbers (the source freely uses
`Math.exp`, `Math.sin`, `Math.cos`, `Math.sqrt`, and `Math.PI`, so an exact
rational embedding is not possible); `Math.random()` is modelled as an
explicit stream of real draws threaded through every function that consumes
randomness.  Mutable JS arrays become Lean lists (JS `push` appends at the
end, `pop` removes the end, `splice(i, 1)` is removal at index `i`).
-/

namespace Spaceship

open scoped Classical

noncomputable section

/-- A stream of `Math.random()` results: an infinite sequence of reals
together with the index of the next draw.  The source never seeds or
re-seeds the generator, so the stream is an arbitrary parameter. -/
structure Rng where
  seq : ℕ → ℝ
  idx : ℕ

/-- One call of `Math.random()`: return the next value and advance. -/
def Rng.draw (g : Rng) : ℝ × Rng :=
  (g.seq g.idx, { g with idx := g.idx + 1 })

/-! ## Object pool (`src/utils/ObjectPool.ts`, `part_009`)

`class ObjectPool<T>` holds `pool: T[]`, a construction function `createFn`,
a reset function `resetFn` and `maxSize`.  The constructor pre-populates
the array with `initialSize` results of `createFn` (without resetting
them).  JS `pop`/`push` operate on the array's end; we keep the same array
order, so `acquire` takes the last element and `release` appends.
The TS `createFn`/`resetFn` mutate or build plain records; here they are
pure functions `Unit → T` (modelled as a value) and `T → T`. -/
structure ObjectPool (T : Type) where
  pool : List T
  createFn : T
  resetFn : T → T
  maxSize : ℕ

/-- `new ObjectPool(createFn, resetFn, initialSize, maxSize)`:
pre-populate the pool with `initialSize` freshly constructed objects. -/
def ObjectPool.mk' (createFn : T) (resetFn : T → T) (initialSize maxSize : ℕ) :
    ObjectPool T :=
  { pool := List.replicate initialSize createFn
    createFn := createFn
    resetFn := resetFn
    maxSize := maxSize }

/-- `acquire()`: pop the last pooled object if the array is non-empty,
otherwise construct a new one.  Always returns an object. -/
def ObjectPool.acquire (p : ObjectPool T) : T × ObjectPool T :=
  match p.pool.getLast? with
  | some obj => (obj, { p with pool := p.pool.dropLast })
  | none => (p.createFn, p)

/-- `release(obj)`: if the free list is below `maxSize`, reset the object
and push it; otherwise drop it (left for garbage collection). -/
def ObjectPool.release (obj : T) (p : ObjectPool T) : ObjectPool T :=
  if p.pool.length < p.maxSize then
    { p with pool := p.pool ++ [p.resetFn obj] }
  else
    p

/-- `getStats()`: available count and configured maximum. -/
def ObjectPool.getStats (p : ObjectPool T) : ℕ × ℕ :=
  (p.pool.length, p.maxSize)

/-! ## Spawn-rate ramp (`calculateSpawnRate`, loop.ts lines 429-438) -/

/-- Spawn configuration (`config.spawn`): safety margin, base spawn rate
per second, and the exponential ramp constant `k`. -/
structure SpawnCfg where
  margin : ℝ
  basePerSecond : ℝ
  rateRampK : ℝ

/-- `calculateSpawnRate(gameTimeSeconds)`:
`rate = baseRate * e^(k * time)`, capped at `maxRate = baseRate * 10`. -/
def calculateSpawnRate (spawn : SpawnCfg) (gameTimeSeconds : ℝ) : ℝ :=
  let baseRate := spawn.basePerSecond
  let k := spawn.rateRampK
  let currentRate := baseRate * Real.exp (k * gameTimeSeconds)
  let maxRate := baseRate * 10
  min currentRate maxRate

/-- The meteoroid spawn gate (loop.ts line 132): a meteoroid is spawned in
a running tick exactly when
`currentTime - lastMeteorospawnTime > 1000 / currentSpawnRate`
(times in milliseconds, rate in 1/second). -/
def meteoroidSpawnGate (spawn : SpawnCfg) (currentTime gameStartTime lastMeteorospawnTime : ℝ) :
    Prop :=
  currentTime - lastMeteorospawnTime >
    1000 / calculateSpawnRate spawn ((currentTime - gameStartTime) / 1000)

/-! ## Meteoroid (`src/entities/Meteoroid.ts`) -/

/-- Meteoroid size class `'L' | 'M' | 'S'`. -/
inductive SizeType where
  | L
  | M
  | S
deriving DecidableEq, Repr

/-- Per-type meteoroid configuration (`MeteoroidConfig` in
`src/types/config.ts`): id, per-size HP, per-size split rule (the `S`
entry is `null` by the TypeScript type; split targets are written as the
size class the source casts them to), speed range, spin range, and spawn
weight. -/
structure MeteoroidCfg where
  id : String
  hpL : ℝ
  hpM : ℝ
  hpS : ℝ
  splitL : Option (ℕ × SizeType)
  splitM : Option (ℕ × SizeType)
  speedMin : ℝ
  speedMax : ℝ
  spinMin : ℝ
  spinMax : ℝ
  weight : ℝ

/-- `config.hp[sizeType]`. -/
def MeteoroidCfg.hpFor (c : MeteoroidCfg) : SizeType → ℝ
  | .L => c.hpL
  | .M => c.hpM
  | .S => c.hpS

/-- `config.split[sizeType]`; the `S` entry is `null` by the config type. -/
def MeteoroidCfg.splitFor (c : MeteoroidCfg) : SizeType → Option (ℕ × SizeType)
  | .L => c.splitL
  | .M => c.splitM
  | .S => none

/-- `const sizeMap = { L: 64, M: 48, S: 32 }`. -/
def sizeMap : SizeType → ℝ
  | .L => 64
  | .M => 48
  | .S => 32

/-- The meteoroid state: position, velocity components, visual size,
current/base speed, rotation, current/base HP, size class, its config,
stored base velocity, the angular-fall setting, and the live difficulty
multipliers.  (The sprite-image and fire-trail fields are render-only and
carry no gameplay state beyond what is kept here; the trail is omitted.) -/
structure Meteoroid where
  x : ℝ
  y : ℝ
  vx : ℝ
  vy : ℝ
  size : ℝ
  speed : ℝ
  rotation : ℝ
  rotationSpeed : ℝ
  hp : ℝ
  baseHp : ℝ
  sizeType : SizeType
  cfg : MeteoroidCfg
  baseSpeed : ℝ
  baseVx : ℝ
  baseVy : ℝ
  angularFallDegrees : ℝ
  speedMultiplier : ℝ
  hpBonus : ℝ

/-- The `Meteoroid` constructor (Meteoroid.ts lines 29-89).  It consumes
four `Math.random()` draws: the base speed in `[speedMin, speedMax)`, the
spin, the ±15% angular variation, and the left/right direction. -/
def mkMeteoroid (x y : ℝ) (sizeType : SizeType) (cfg : MeteoroidCfg)
    (angularFallDegrees hpBonus : ℝ) (g : Rng) : Meteoroid × Rng :=
  let (rSpeed, g) := g.draw
  let (rSpin, g) := g.draw
  let (rVar, g) := g.draw
  let (rDir, g) := g.draw
  let baseHp := cfg.hpFor sizeType
  let baseSpeed := cfg.speedMin + rSpeed * (cfg.speedMax - cfg.speedMin)
  let rotationSpeed :=
    (cfg.spinMin + rSpin * (cfg.spinMax - cfg.spinMin)) * (Real.pi / 180) * 0.016
  let randomVariation := (rVar - 0.5) * 0.3
  let finalAngleDegrees := angularFallDegrees * (1 + randomVariation)
  let angleRadians := finalAngleDegrees * (Real.pi / 180)
  let direction : ℝ := if rDir < 0.5 then -1 else 1
  let baseVx := Real.sin angleRadians * baseSpeed * direction
  let baseVy := Real.cos angleRadians * baseSpeed
  ({ x := x
     y := y
     vx := baseVx
     vy := baseVy
     size := sizeMap sizeType
     speed := baseSpeed
     rotation := 0
     rotationSpeed := rotationSpeed
     hp := baseHp + hpBonus
     baseHp := baseHp
     sizeType := sizeType
     cfg := cfg
     baseSpeed := baseSpeed
     baseVx := baseVx
     baseVy := baseVy
     angularFallDegrees := angularFallDegrees
     speedMultiplier := 1
     hpBonus := hpBonus }, g)

/-- `Meteoroid.update()` (Meteoroid.ts lines 91-126): re-derive speed and
velocity from the base values and the live multiplier, integrate position,
advance rotation.  (The fire-trail bookkeeping is render-only.) -/
def Meteoroid.update (m : Meteoroid) : Meteoroid :=
  { m with
    speed := m.baseSpeed * m.speedMultiplier
    vx := m.baseVx * m.speedMultiplier
    vy := m.baseVy * m.speedMultiplier
    x := m.x + m.baseVx * m.speedMultiplier
    y := m.y + m.baseVy * m.speedMultiplier
    rotation := m.rotation + m.rotationSpeed }

/-- `setSpeedMultiplier(multiplier)`. -/
def Meteoroid.setSpeedMultiplier (multiplier : ℝ) (m : Meteoroid) : Meteoroid :=
  { m with speedMultiplier := multiplier }

/-- `setHpBonus(bonus)`: when the bonus changed, add the difference to the
current HP. -/
def Meteoroid.setHpBonus (bonus : ℝ) (m : Meteoroid) : Meteoroid :=
  if m.hpBonus ≠ bonus then
    { m with hpBonus := bonus, hp := m.hp + (bonus - m.hpBonus) }
  else
    m

/-- `isOffScreen(canvasHeight, canvasWidth)`: below the bottom edge, or
outside the horizontal bounds with a one-size margin (only checked when a
positive canvas width is passed). -/
def Meteoroid.isOffScreen (canvasHeight canvasWidth : ℝ) (m : Meteoroid) : Prop :=
  m.y - m.size / 2 > canvasHeight ∨
    (canvasWidth > 0 ∧
      (m.x + m.size / 2 < -m.size ∨ m.x - m.size / 2 > canvasWidth + m.size))

/-- `getCollisionRadius()`. -/
def Meteoroid.getCollisionRadius (m : Meteoroid) : ℝ :=
  m.size / 2

/-- `takeDamage(damage)`: subtract and report destruction (`hp ≤ 0`). -/
def Meteoroid.takeDamage (damage : ℝ) (m : Meteoroid) : Bool × Meteoroid :=
  let m' := { m with hp := m.hp - damage }
  (decide (m'.hp ≤ 0), m')

/-- `isDestroyed()`. -/
def Meteoroid.isDestroyed (m : Meteoroid) : Prop :=
  m.hp ≤ 0

/-- The loop inside `getSplitMeteoroids` (Meteoroid.ts lines 403-414):
build `count` children of size `newSizeType`, placed on a circle of radius
`size * 0.3` around the parent, each constructed with the parent's config,
angular-fall setting and HP bonus, then slowed to 80% of its rolled speed.
`i` counts up from 0 as in the `for` loop. -/
def splitChildren (m : Meteoroid) (count : ℕ) (newSizeType : SizeType) :
    ℕ → Rng → List Meteoroid × Rng
  | 0, g => ([], g)
  | n + 1, g =>
    let i := count - (n + 1)
    let angle := Real.pi * 2 * i / count
    let offset := m.size * 0.3
    let newX := m.x + Real.cos angle * offset
    let newY := m.y + Real.sin angle * offset
    let (child, g) :=
      mkMeteoroid newX newY newSizeType m.cfg m.angularFallDegrees m.hpBonus g
    let child := { child with speed := child.speed * 0.8 }
    let (rest, g) := splitChildren m count newSizeType n g
    (child :: rest, g)

/-- `getSplitMeteoroids()` (Meteoroid.ts lines 394-417): no children when
the split entry for this size class is `null`, otherwise `count` children
of the configured smaller size. -/
def Meteoroid.getSplitMeteoroids (m : Meteoroid) (g : Rng) : List Meteoroid × Rng :=
  match m.cfg.splitFor m.sizeType with
  | none => ([], g)
  | some (count, newSizeType) => splitChildren m count newSizeType count g

/-! ## Projectile (`src/entities/Projectile.ts`) -/

/-- Projectile configuration (`config.projectile`). -/
structure ProjectileCfg where
  speed : ℝ
  fireRate : ℝ

/-- Projectile state: position, fixed 8x16 extent, speed, liveness. -/
structure Projectile where
  x : ℝ
  y : ℝ
  width : ℝ
  height : ℝ
  speed : ℝ
  alive : Bool

/-- The `Projectile` constructor: position plus configured speed; `width`
and `height` default to 8 and 16; `alive` starts true. -/
def mkProjectile (x y : ℝ) (cfg : ProjectileCfg) : Projectile :=
  { x := x, y := y, width := 8, height := 16, speed := cfg.speed, alive := true }

/-- `Projectile.update(deltaTime, canvasHeight)`: move upward; die once
fully above the top edge. -/
def Projectile.update (deltaTime : ℝ) (p : Projectile) : Projectile :=
  let p := { p with y := p.y - p.speed * deltaTime }
  if p.y + p.height < 0 then { p with alive := false } else p

/-- `Projectile.getCollisionRadius()`. -/
def Projectile.getCollisionRadius (p : Projectile) : ℝ :=
  min p.width p.height / 2

/-- Modelled from the spec: `ProjectilePool.acquire(x, y)` calls
`projectile.reset(x, y)` on the pooled instance, but the `Projectile`
revision in `src/` lacks a `reset` method.  Per the spec's pool contract
("a reused, reset one"), it re-initializes the position to `(x, y)` and
marks the projectile alive for its new flight. -/
def Projectile.resetAt (x y : ℝ) (p : Projectile) : Projectile :=
  { p with x := x, y := y, alive := true }

/-- `ProjectilePool.acquire(x, y)` (`src/systems/ProjectilePool.ts`):
take a projectile from the underlying generic pool and re-initialize it at
the requested position. -/
def projectilePoolAcquire (x y : ℝ) (pool : ObjectPool Projectile) :
    Projectile × ObjectPool Projectile :=
  let (p, pool) := pool.acquire
  (p.resetAt x y, pool)

/-- The pool wrapped by `ProjectilePool`: constructs at `(0, 0)`, resets by
clearing `alive`, pre-warms 20, retains at most 100. -/
def mkProjectilePool (cfg : ProjectileCfg) : ObjectPool Projectile :=
  ObjectPool.mk' (mkProjectile 0 0 cfg) (fun p => { p with alive := false }) 20 100

/-! ## Power-up (`src/entities/PowerUp.ts`) -/

/-- `PowerUpType = '+1life' | 'rapidFire' | 'scoreMultiplier'`. -/
inductive PowerUpType where
  | plusOneLife
  | rapidFire
  | scoreMultiplier
deriving DecidableEq, Repr

/-- Per-level rapid-fire entry (`config.powerUps.rapidFire.levels[level]`). -/
structure RapidFireLevelCfg where
  fireRate : ℝ
  barrels : ℕ

/-- Power-up configuration (`config.powerUps`): spawn interval, fall
speed, rapid-fire level table (total here, as the validated config
provides entries for every level 1..maxLevel), and the score-multiplier
parameters. -/
structure PowerUpsCfg where
  spawnFrequencySeconds : ℝ
  speed : ℝ
  rapidFireMaxLevel : ℕ
  rapidFireLevels : ℕ → RapidFireLevelCfg
  scoreMultiplierMult : ℝ
  scoreMultiplierDurationMs : ℝ

/-- Power-up state: position, fixed 32x32 extent, type, fall speed. -/
structure PowerUp where
  x : ℝ
  y : ℝ
  width : ℝ
  height : ℝ
  type : PowerUpType
  speed : ℝ

/-- The `PowerUp` constructor. -/
def mkPowerUp (x y : ℝ) (type : PowerUpType) (cfg : PowerUpsCfg) : PowerUp :=
  { x := x, y := y, width := 32, height := 32, type := type, speed := cfg.speed }

/-- `PowerUp.update(deltaTime)`: drift downward, normalized for 60 fps. -/
def PowerUp.update (deltaTime : ℝ) (u : PowerUp) : PowerUp :=
  { u with y := u.y + u.speed * (deltaTime / 16) }

/-- `PowerUp.isOffScreen(canvasHeight)`. -/
def PowerUp.isOffScreen (canvasHeight : ℝ) (u : PowerUp) : Prop :=
  u.y > canvasHeight + u.height

/-- `PowerUp.getRadius()`. -/
def PowerUp.getRadius (u : PowerUp) : ℝ :=
  max (min u.width u.height / 2 * 0.8) 20

/-! ## Ad (`src/entities/Ad.ts`) -/

/-- Ad configuration (`config.ads`), the fields the loop consumes. -/
structure AdsCfg where
  enabled : Bool
  spawnIntervalSeconds : ℝ
  fallSpeed : ℝ
  texts : List String

/-- Ad state: position, text, fall speed. -/
structure Ad where
  x : ℝ
  y : ℝ
  text : String
  speed : ℝ

/-- The `Ad` constructor. -/
def mkAd (x y : ℝ) (text : String) (cfg : AdsCfg) : Ad :=
  { x := x, y := y, text := text, speed := cfg.fallSpeed }

/-- `Ad.update(deltaTime)`. -/
def Ad.update (deltaTime : ℝ) (a : Ad) : Ad :=
  { a with y := a.y + a.speed * (deltaTime / 16) }

/-- `Ad.isOffScreen(canvasHeight)`. -/
def Ad.isOffScreen (canvasHeight : ℝ) (a : Ad) : Prop :=
  a.y > canvasHeight + 50

/-! ## Ship (`src/entities/Ship.ts`, revision `part_005`)

The loop's call site passes an optional touch target to a still newer
`Ship.update` revision that is not part of the sources; `part_005` is the
latest `Ship` revision available and is the one embedded here (the claims
about damage and invincibility concern `takeDamage`, which it defines). -/

/-- Ship lives configuration (`config.ship.lives`). -/
structure LivesCfg where
  start : ℤ
  max : ℤ

/-- Ship configuration (`config.ship`), the fields the simulation reads. -/
structure ShipCfg where
  autoFire : Bool
  moveSpeed : ℝ
  lives : LivesCfg
  collisionRadiusScale : ℝ

/-- Ship state: position, 64x64 extent, lives, fire-cooldown state, barrel
count, and the invincibility window. `invincibilityDuration` is the
constructor's fixed 2000 ms. -/
structure Ship where
  x : ℝ
  y : ℝ
  width : ℝ
  height : ℝ
  lives : ℤ
  lastFireTime : ℝ
  fireInterval : ℝ
  barrels : ℕ
  invincible : Bool
  invincibilityEndTime : ℝ
  invincibilityDuration : ℝ

/-- The `Ship` constructor: start lives from config, fire interval from
the configured fire rate, one barrel, not invincible. -/
def mkShip (x y : ℝ) (ship : ShipCfg) (projectile : ProjectileCfg) : Ship :=
  { x := x
    y := y
    width := 64
    height := 64
    lives := ship.lives.start
    lastFireTime := 0
    fireInterval := 1000 / projectile.fireRate
    barrels := 1
    invincible := false
    invincibilityEndTime := 0
    invincibilityDuration := 2000 }

/-- The barrel positions of one volley (Ship.ts lines 66-83): one centered
projectile for a single barrel, otherwise `barrels` positions evenly
spaced across the ship width; all spawn just above the ship's top. -/
def barrelXs (s : Ship) : List ℝ :=
  if s.barrels = 1 then
    [s.x]
  else
    let barrelSpacing := s.width / (s.barrels + 1)
    let startX := s.x - s.width / 2 + barrelSpacing
    (List.range s.barrels).map fun i => startX + i * barrelSpacing

/-- `Ship.update(...)` (part_005 lines 44-89): clear an expired
invincibility window, integrate the movement input, clamp to the canvas,
and, when autofire is enabled and the cooldown has elapsed, emit one
projectile per barrel via the supplied factory (the projectile pool) and
reset the cooldown. -/
def Ship.update (shipCfg : ShipCfg) (deltaTime movementX movementY : ℝ)
    (canvasWidth canvasHeight currentTime : ℝ) (s : Ship)
    (pool : ObjectPool Projectile) :
    Ship × List Projectile × ObjectPool Projectile :=
  let s := if s.invincible ∧ currentTime ≥ s.invincibilityEndTime then
    { s with invincible := false } else s
  let speed := shipCfg.moveSpeed
  let s := { s with
    x := s.x + movementX * speed * deltaTime
    y := s.y + movementY * speed * deltaTime }
  let halfWidth : ℝ := s.width / 2
  let halfHeight : ℝ := s.height / 2
  let s := { s with
    x := max halfWidth (min (canvasWidth - halfWidth) s.x)
    y := max halfHeight (min (canvasHeight - halfHeight) s.y) }
  if shipCfg.autoFire ∧ currentTime - s.lastFireTime ≥ s.fireInterval then
    let s := { s with lastFireTime := currentTime }
    let shipTop := s.y - s.height / 2 - 10
    let (projectiles, pool) :=
      (barrelXs s).foldl
        (fun (acc : List Projectile × ObjectPool Projectile) bx =>
          let (p, pool) := projectilePoolAcquire bx shipTop acc.2
          (acc.1 ++ [p], pool))
        ([], pool)
    (s, projectiles, pool)
  else
    (s, [], pool)

/-- `Ship.getCollisionRadius()`. -/
def Ship.getCollisionRadius (shipCfg : ShipCfg) (s : Ship) : ℝ :=
  min s.width s.height / 2 * shipCfg.collisionRadiusScale

/-- `Ship.setFireRate(fireRate)`. -/
def Ship.setFireRate (fireRate : ℝ) (s : Ship) : Ship :=
  { s with fireInterval := 1000 / fireRate }

/-- `Ship.setBarrels(barrels)`. -/
def Ship.setBarrels (barrels : ℕ) (s : Ship) : Ship :=
  { s with barrels := barrels }

/-- `Ship.resetToDefault()`: one barrel and the configured base fire rate
(the skin change is render-only). -/
def Ship.resetToDefault (projectile : ProjectileCfg) (s : Ship) : Ship :=
  { s with barrels := 1, fireInterval := 1000 / projectile.fireRate }

/-- `Ship.takeDamage(currentTime)` (part_005 lines 162-172): no effect
while invincible; otherwise decrement lives, open an invincibility window
of `invincibilityDuration`, and report destruction (`lives ≤ 0`). -/
def Ship.takeDamage (currentTime : ℝ) (s : Ship) : Bool × Ship :=
  if s.invincible then
    (false, s)
  else
    let s := { s with
      lives := s.lives - 1
      invincible := true
      invincibilityEndTime := currentTime + s.invincibilityDuration }
    (decide (s.lives ≤ 0), s)

/-- `Ship.canTakeDamage()`. -/
def Ship.canTakeDamage (s : Ship) : Bool :=
  !s.invincible

/-! ## Particle system (`src/systems/particles.ts`)

`ParticlePool.acquire` re-initializes every `Particle` field
(`src/systems/ParticlePool.ts` lines 44-55), so which pooled record is
reused never changes a particle's field values; the particle registry is
therefore embedded as a plain list of particle records, and the particle
pool's free list is tracked separately as the `ObjectPool` it is. -/

/-- A particle record (`Particle` in particles.ts); `color` is a render
string. -/
structure Particle where
  x : ℝ
  y : ℝ
  vx : ℝ
  vy : ℝ
  life : ℝ
  maxLife : ℝ
  size : ℝ
  color : String

/-- One step of `ParticleSystem.update(deltaTime)` on a single particle:
integrate position, age, gravity and drag. -/
def Particle.step (deltaTime : ℝ) (p : Particle) : Particle :=
  { p with
    x := p.x + p.vx * deltaTime
    y := p.y + p.vy * deltaTime
    life := p.life + deltaTime
    vy := (p.vy + 100 * deltaTime) * 0.98
    vx := p.vx * 0.98 }

/-- `ParticleSystem.update(deltaTime)`: step every particle and drop the
ones whose life reached `maxLife` (they return to the particle pool, which
is tracked separately). -/
def particlesUpdate (deltaTime : ℝ) (particles : List Particle) : List Particle :=
  (particles.map (Particle.step deltaTime)).filter fun p => ¬p.life ≥ p.maxLife

/-! ## Collision engine (`src/systems/collision.ts`, `part_003`) -/

/-- `checkCircleCollision`: strict comparison of the center distance with
the radius sum. -/
def checkCircleCollision (x1 y1 radius1 x2 y2 radius2 : ℝ) : Prop :=
  Real.sqrt ((x2 - x1) * (x2 - x1) + (y2 - y1) * (y2 - y1)) < radius1 + radius2

/-- A projectile-meteoroid collision record (`CollisionResult` with both
optional fields present): the two indices at detection time and the fixed
damage of 1. -/
structure PMRecord where
  projectileIndex : ℕ
  meteoroidIndex : ℕ
  damage : ℝ
deriving DecidableEq

/-- A ship-meteoroid collision record. -/
structure ShipMRecord where
  meteoroidIndex : ℕ
deriving DecidableEq

/-- A ship-powerup collision record (`PowerUpCollisionResult`). -/
structure PURecord where
  powerUpIndex : ℕ
deriving DecidableEq

/-- A projectile-powerup collision record
(`ProjectilePowerUpCollisionResult`). -/
structure PPURecord where
  projectileIndex : ℕ
  powerUpIndex : ℕ
deriving DecidableEq

/-- `CollisionSystem.checkProjectileCollisions`: all-pairs circle tests,
projectile index in the outer loop, meteoroid index in the inner loop,
each hit carrying damage 1. -/
def checkProjectileCollisions (projectiles : List Projectile)
    (meteoroids : List Meteoroid) : List PMRecord :=
  (List.range projectiles.length).flatMap fun p =>
    (List.range meteoroids.length).filterMap fun m =>
      match projectiles[p]?, meteoroids[m]? with
      | some projectile, some meteoroid =>
        if checkCircleCollision projectile.x projectile.y projectile.getCollisionRadius
            meteoroid.x meteoroid.y meteoroid.getCollisionRadius then
          some { projectileIndex := p, meteoroidIndex := m, damage := 1 }
        else
          none
      | _, _ => none

/-- `CollisionSystem.checkShipCollisions`. -/
def checkShipCollisions (shipCfg : ShipCfg) (ship : Ship)
    (meteoroids : List Meteoroid) : List ShipMRecord :=
  (List.range meteoroids.length).filterMap fun m =>
    match meteoroids[m]? with
    | some meteoroid =>
      if checkCircleCollision ship.x ship.y (ship.getCollisionRadius shipCfg)
          meteoroid.x meteoroid.y meteoroid.getCollisionRadius then
        some { meteoroidIndex := m }
      else
        none
    | none => none

/-- `CollisionSystem.checkPowerUpCollisions`. -/
def checkPowerUpCollisions (shipCfg : ShipCfg) (ship : Ship)
    (powerUps : List PowerUp) : List PURecord :=
  (List.range powerUps.length).filterMap fun p =>
    match powerUps[p]? with
    | some powerUp =>
      if checkCircleCollision ship.x ship.y (ship.getCollisionRadius shipCfg)
          powerUp.x powerUp.y powerUp.getRadius then
        some { powerUpIndex := p }
      else
        none
    | none => none

/-- `CollisionSystem.checkProjectilePowerUpCollisions`. -/
def checkProjectilePowerUpCollisions (projectiles : List Projectile)
    (powerUps : List PowerUp) : List PPURecord :=
  (List.range projectiles.length).flatMap fun p =>
    (List.range powerUps.length).filterMap fun pu =>
      match projectiles[p]?, powerUps[pu]? with
      | some projectile, some powerUp =>
        if checkCircleCollision projectile.x projectile.y projectile.getCollisionRadius
            powerUp.x powerUp.y powerUp.getRadius then
          some { projectileIndex := p, powerUpIndex := pu }
        else
          none
      | _, _ => none

/-- The sort applied to the projectile-meteoroid batch (loop.ts line 459):
`projectileCollisions.sort((a, b) => b.meteoroidIndex - a.meteoroidIndex)`,
a stable sort by descending meteoroid index (ES2019 `Array.prototype.sort`
is stable; `List.mergeSort` is as well). -/
def sortPMByMeteoroidDesc (records : List PMRecord) : List PMRecord :=
  records.mergeSort fun a b => b.meteoroidIndex ≤ a.meteoroidIndex

/-- The sort applied to the projectile-powerup batch (loop.ts lines
651-656): by descending power-up index, ties by descending projectile
index. -/
def sortPPUDesc (records : List PPURecord) : List PPURecord :=
  records.mergeSort fun a b =>
    if a.powerUpIndex ≠ b.powerUpIndex then
      b.powerUpIndex ≤ a.powerUpIndex
    else
      b.projectileIndex ≤ a.projectileIndex

/-! ### Particle-effect constructors (`src/systems/particles.ts`)

Each constructor acquires pooled particle records; `ParticlePool.acquire`
re-initializes every field (with `maxLife` set equal to the requested
`life`), so only the requested field values matter here.  Logging draws
(`logger.debugRandom`) advance the JS generator without affecting state
and are not threaded. -/

/-- The impact-effect color cycle. -/
def impactColors : List String :=
  ["#ffffff", "#ffdd00", "#ff6600", "#ff0066", "#66ff00", "#0066ff"]

/-- The loop body of `createImpactEffect` (particles.ts lines 26-43):
particle `i` of `count`, four draws (angle jitter, speed, life, size). -/
def impactLoop (x y : ℝ) (count : ℕ) : ℕ → Rng → List Particle × Rng
  | 0, g => ([], g)
  | n + 1, g =>
    let i := count - (n + 1)
    let (r1, g) := g.draw
    let (r2, g) := g.draw
    let (r3, g) := g.draw
    let (r4, g) := g.draw
    let angle := Real.pi * 2 * i / count + (r1 - 0.5) * 0.5
    let speed := 50 + r2 * 100
    let life := 2.0 + r3 * 1.0
    let size := 5 + r4 * 10
    let color := impactColors.getD (i % impactColors.length) "#ffffff"
    let p : Particle :=
      { x := x, y := y
        vx := Real.cos angle * speed, vy := Real.sin angle * speed
        life := life, maxLife := life, size := size, color := color }
    let (rest, g) := impactLoop x y count n g
    (p :: rest, g)

/-- `createImpactEffect(x, y)` with its default count of 16. -/
def createImpactEffect (x y : ℝ) (g : Rng) : List Particle × Rng :=
  impactLoop x y 16 16 g

/-- The loop body of `createExplosionEffect` (particles.ts lines 53-88):
particle `i` of `total`, seven draws (angle, speed, life, size, color,
x-offset, y-offset), with the main/secondary split at `baseCount`. -/
def explosionLoop (x y meteoroidSize : ℝ) (baseCount total : ℕ) :
    ℕ → Rng → List Particle × Rng
  | 0, g => ([], g)
  | n + 1, g =>
    let i := total - (n + 1)
    let (r1, g) := g.draw
    let (r2, g) := g.draw
    let (r3, g) := g.draw
    let (r4, g) := g.draw
    let (r5, g) := g.draw
    let (r6, g) := g.draw
    let (r7, g) := g.draw
    let angle := r1 * Real.pi * 2
    let isMainExplosion := i < baseCount
    let speed := if isMainExplosion then 60 + r2 * 120 else 20 + r2 * 60
    let life := if isMainExplosion then 1.0 + r3 * 0.8 else 0.6 + r3 * 0.8
    let size := if isMainExplosion then 2 + r4 * 6 else 1 + r4 * 3
    let colors : List String :=
      if isMainExplosion then ["#ffdd44", "#ff8844", "#ff4444", "#ffaa22"]
      else ["#aa6644", "#886644", "#664444", "#444444"]
    let color := colors.getD (Int.toNat ⌊r5 * 4⌋) "#ffdd44"
    let spread := if isMainExplosion then 0.3 else 0.7
    let p : Particle :=
      { x := x + (r6 - 0.5) * meteoroidSize * spread
        y := y + (r7 - 0.5) * meteoroidSize * spread
        vx := Real.cos angle * speed, vy := Real.sin angle * speed
        life := life, maxLife := life, size := size, color := color }
    let (rest, g) := explosionLoop x y meteoroidSize baseCount total n g
    (p :: rest, g)

/-- `createExplosionEffect(x, y, meteoroidSize)`. -/
def createExplosionEffect (x y meteoroidSize : ℝ) (g : Rng) : List Particle × Rng :=
  let baseCount := max 12 (Int.toNat ⌊meteoroidSize / 2⌋)
  let extraCount := Int.toNat ⌊meteoroidSize / 3⌋
  let totalCount := baseCount + extraCount
  explosionLoop x y meteoroidSize baseCount totalCount totalCount g

/-- The damage-burst color table. -/
def damageBurstColors : List String :=
  ["#ff0080", "#ff4000", "#ff8000", "#ffff00",
   "#80ff00", "#00ff40", "#00ff80", "#00ffff",
   "#0080ff", "#4000ff", "#8000ff", "#ff00ff"]

/-- The loop body of `createDamageBurst` (particles.ts lines 100-122):
seven draws per particle (angle jitter, speed, life, size, color,
x-offset, y-offset). -/
def damageBurstLoop (x y meteoroidSize intensity : ℝ) (baseCount : ℕ) :
    ℕ → Rng → List Particle × Rng
  | 0, g => ([], g)
  | n + 1, g =>
    let i := baseCount - (n + 1)
    let (r1, g) := g.draw
    let (r2, g) := g.draw
    let (r3, g) := g.draw
    let (r4, g) := g.draw
    let (r5, g) := g.draw
    let (r6, g) := g.draw
    let (r7, g) := g.draw
    let angle := Real.pi * 2 * i / baseCount + (r1 - 0.5) * 0.4
    let speed := (30 + r2 * 60) * intensity
    let life := (1.5 + r3 * 1.5) * intensity
    let size := (4 + r4 * 8) * intensity
    let color := damageBurstColors.getD (Int.toNat ⌊r5 * damageBurstColors.length⌋) "#ff0080"
    let p : Particle :=
      { x := x + (r6 - 0.5) * meteoroidSize * 0.2
        y := y + (r7 - 0.5) * meteoroidSize * 0.2
        vx := Real.cos angle * speed, vy := Real.sin angle * speed
        life := life, maxLife := life, size := size, color := color }
    let (rest, g) := damageBurstLoop x y meteoroidSize intensity baseCount n g
    (p :: rest, g)

/-- `createDamageBurst(x, y, meteoroidSize, isDestroyed)`. -/
def createDamageBurst (x y meteoroidSize : ℝ) (isDestroyed : Bool) (g : Rng) :
    List Particle × Rng :=
  let intensity : ℝ := if isDestroyed then 1.5 else 1.0
  let count := Int.toNat ⌊meteoroidSize / 6 * intensity⌋
  let baseCount := max 8 count
  damageBurstLoop x y meteoroidSize intensity baseCount baseCount g

/-- The loop body of `createFireworkBurst` (particles.ts lines 132-147):
five draws per particle (angle jitter, speed, life, size, color). -/
def fireworkLoop (x y : ℝ) (burstCount : ℕ) : ℕ → Rng → List Particle × Rng
  | 0, g => ([], g)
  | n + 1, g =>
    let i := burstCount - (n + 1)
    let (r1, g) := g.draw
    let (r2, g) := g.draw
    let (r3, g) := g.draw
    let (r4, g) := g.draw
    let (r5, g) := g.draw
    let angle := Real.pi * 2 * i / burstCount + (r1 - 0.5) * 0.3
    let speed := 80 + r2 * 100
    let life := 1.2 + r3 * 0.8
    let size := 3 + r4 * 5
    let color := (["#ffffff", "#ffff44", "#ffaa44", "#ff6644"] : List String).getD
      (Int.toNat ⌊r5 * 4⌋) "#ffffff"
    let p : Particle :=
      { x := x, y := y
        vx := Real.cos angle * speed, vy := Real.sin angle * speed
        life := life, maxLife := life, size := size, color := color }
    let (rest, g) := fireworkLoop x y burstCount n g
    (p :: rest, g)

/-- `createFireworkBurst(x, y, meteoroidSize)`: nothing below size 30. -/
def createFireworkBurst (x y meteoroidSize : ℝ) (g : Rng) : List Particle × Rng :=
  if meteoroidSize < 30 then ([], g)
  else fireworkLoop x y (Int.toNat ⌊meteoroidSize / 8⌋) (Int.toNat ⌊meteoroidSize / 8⌋) g

/-- Modelled from the spec: `loop.ts` calls
`particleSystem.createMegaBurst(x, y, size)` for meteoroids with
`size > 60`, but no revision of `particles.ts` in the sources defines it.
Per the spec the particle system only appends requested particles to the
particle registry; it is modelled as an extra firework-style burst (no
claim depends on its particle contents). -/
def createMegaBurst (x y meteoroidSize : ℝ) (g : Rng) : List Particle × Rng :=
  fireworkLoop x y (Int.toNat ⌊meteoroidSize / 8⌋) (Int.toNat ⌊meteoroidSize / 8⌋) g

/-! ## The game loop (`src/core/loop.ts`) -/

/-- Difficulty configuration (`config.difficulty`). -/
structure DifficultyCfg where
  makeItDifficult : Bool
  delayBeforeIncreaseSeconds : ℝ
  speedIncreaseIntervalSeconds : ℝ
  speedMultiplierPerIncrease : ℝ
  maxSpeedMultiplier : ℝ
  hpIncreaseIntervalSeconds : ℝ
  hpIncreaseAmount : ℝ
  maxHpIncrease : ℝ

/-- The immutable, validated configuration object the loop receives,
restricted to the fields the simulation reads (logging and render
configuration is out of scope). -/
structure GameConfig where
  ship : ShipCfg
  projectile : ProjectileCfg
  spawn : SpawnCfg
  meteoroids : List MeteoroidCfg
  angularFallDegrees : ℝ
  powerUps : PowerUpsCfg
  ads : AdsCfg
  difficulty : DifficultyCfg

/-- The loop's fixed environment: the config plus the canvas extent
(`canvas.width`, `canvas.height`). -/
structure Env where
  cfg : GameConfig
  canvasWidth : ℝ
  canvasHeight : ℝ

/-- Every closure variable of `startGameLoop` that carries game state:
the entity registries (ship, projectiles, meteoroids, power-ups, ads,
particles), the projectile pool, score/power-up scalars, the game-over
flag, and the difficulty and spawn timers. -/
structure LoopState where
  ship : Ship
  projectiles : List Projectile
  meteoroids : List Meteoroid
  powerUps : List PowerUp
  ads : List Ad
  particles : List Particle
  projectilePool : ObjectPool Projectile
  score : ℝ
  rapidFireLevel : ℕ
  scoreMultiplier : ℝ
  scoreMultiplierEndTime : ℝ
  gameOver : Bool
  gameOverTime : ℝ
  gameStartTime : ℝ
  currentSpeedMultiplier : ℝ
  lastSpeedIncreaseTime : ℝ
  currentHpBonus : ℝ
  lastHpIncreaseTime : ℝ
  difficultyStarted : Bool
  lastMeteorospawnTime : ℝ
  lastPowerUpSpawnTime : ℝ
  lastAdSpawnTime : ℝ

/-- The start-of-session state built by `startGameLoop` (loop.ts lines
44-75): ship centered 100px above the bottom, empty registries, pre-warmed
projectile pool, zeroed scalars and timers. -/
def initState (env : Env) : LoopState :=
  { ship := mkShip (env.canvasWidth / 2) (env.canvasHeight - 100) env.cfg.ship env.cfg.projectile
    projectiles := []
    meteoroids := []
    powerUps := []
    ads := []
    particles := []
    projectilePool := mkProjectilePool env.cfg.projectile
    score := 0
    rapidFireLevel := 0
    scoreMultiplier := 1
    scoreMultiplierEndTime := 0
    gameOver := false
    gameOverTime := 0
    gameStartTime := 0
    currentSpeedMultiplier := 1
    lastSpeedIncreaseTime := 0
    currentHpBonus := 0
    lastHpIncreaseTime := 0
    difficultyStarted := false
    lastMeteorospawnTime := 0
    lastPowerUpSpawnTime := 0
    lastAdSpawnTime := 0 }

/-- The speed-increase block of `updateDifficulty` (loop.ts lines
261-277): a geometric speed-multiplier increase on its interval, capped
at the ceiling. -/
def difficultySpeedStep (env : Env) (currentTime : ℝ) (s : LoopState) : LoopState :=
  let d := env.cfg.difficulty
  if (currentTime - s.lastSpeedIncreaseTime) / 1000 ≥ d.speedIncreaseIntervalSeconds then
    if s.currentSpeedMultiplier < d.maxSpeedMultiplier then
      let m := s.currentSpeedMultiplier * d.speedMultiplierPerIncrease
      let m := if m > d.maxSpeedMultiplier then d.maxSpeedMultiplier else m
      { s with currentSpeedMultiplier := m, lastSpeedIncreaseTime := currentTime }
    else s
  else s

/-- The HP-increase block of `updateDifficulty` (loop.ts lines 279-295). -/
def difficultyHpStep (env : Env) (currentTime : ℝ) (s : LoopState) : LoopState :=
  let d := env.cfg.difficulty
  if (currentTime - s.lastHpIncreaseTime) / 1000 ≥ d.hpIncreaseIntervalSeconds then
    if s.currentHpBonus < d.maxHpIncrease then
      let b := s.currentHpBonus + d.hpIncreaseAmount
      let b := if b > d.maxHpIncrease then d.maxHpIncrease else b
      { s with currentHpBonus := b, lastHpIncreaseTime := currentTime }
    else s
  else s

/-- `updateDifficulty(currentTime)` (loop.ts lines 245-296): nothing until
the configured delay; on crossing the delay, mark difficulty started and
stamp the speed timer (and return); afterwards run the speed-increase
block and then the HP-increase block. -/
def updateDifficulty (env : Env) (currentTime : ℝ) (s : LoopState) : LoopState :=
  let d := env.cfg.difficulty
  if ¬d.makeItDifficult then s
  else
    let gameTimeSeconds := (currentTime - s.gameStartTime) / 1000
    if ¬s.difficultyStarted ∧ gameTimeSeconds ≥ d.delayBeforeIncreaseSeconds then
      { s with difficultyStarted := true, lastSpeedIncreaseTime := currentTime }
    else if ¬s.difficultyStarted then s
    else difficultyHpStep env currentTime (difficultySpeedStep env currentTime s)

/-- `restartGame(currentTime)` (loop.ts lines 298-336): reset score and
power-up scalars, the game-over flag, the difficulty state, the spawn
timers and the ship, and clear the projectile, meteoroid, power-up and ad
registries.  The particle registry and the projectile pool are not
touched (the source comments that "the particle pool will handle cleanup
when particles are removed naturally"). -/
def restartGame (env : Env) (currentTime : ℝ) (s : LoopState) : LoopState :=
  { s with
    score := 0
    rapidFireLevel := 0
    scoreMultiplier := 1
    scoreMultiplierEndTime := 0
    gameOver := false
    gameOverTime := 0
    gameStartTime := currentTime
    currentSpeedMultiplier := 1
    lastSpeedIncreaseTime := 0
    currentHpBonus := 0
    lastHpIncreaseTime := 0
    difficultyStarted := false
    lastMeteorospawnTime := 0
    lastPowerUpSpawnTime := 0
    lastAdSpawnTime := 0
    ship :=
      ({ s.ship with
          lives := env.cfg.ship.lives.start
          x := env.canvasWidth / 2
          y := env.canvasHeight - 100 }).resetToDefault env.cfg.projectile
    projectiles := []
    meteoroids := []
    powerUps := []
    ads := [] }

/-- A placeholder meteoroid config: `config.meteoroids[0]` on an empty
table is `undefined` in JS; the deployed config always has entries, so
this value is never reached from the repository's configuration. -/
def emptyMeteoroidCfg : MeteoroidCfg :=
  { id := ""
    hpL := 0, hpM := 0, hpS := 0
    splitL := none, splitM := none
    speedMin := 0, speedMax := 0
    spinMin := 0, spinMax := 0
    weight := 0 }

/-- The scan loop of `selectMeteoruidType` (loop.ts lines 344-349):
subtract each weight from the scaled draw and stop at the first entry
driving it to `≤ 0`. -/
def selectScan (random : ℝ) : List MeteoroidCfg → Option MeteoroidCfg
  | [] => none
  | c :: rest =>
    if random - c.weight ≤ 0 then some c else selectScan (random - c.weight) rest

/-- `selectMeteoruidType()` (loop.ts lines 338-353, name as in the
source): weighted-random selection with fallback to the first entry. -/
def selectMeteoruidType (cfg : GameConfig) (r : ℝ) : MeteoroidCfg :=
  let totalWeight := (cfg.meteoroids.map MeteoroidCfg.weight).sum
  let random := r * totalWeight
  (selectScan random cfg.meteoroids).getD (cfg.meteoroids.headD emptyMeteoroidCfg)

/-- The spawn-position do-while of `spawnMeteoroid` (loop.ts lines
371-379): draw `x` uniformly over the canvas width, redrawing while it is
within the safety radius of the ship and fewer than `maxAttempts = 10`
draws have happened (the fuel argument counts the remaining draws). -/
def findSpawnX (canvasWidth shipX safetyRadius : ℝ) : ℕ → Rng → ℝ × Rng
  | 0, g =>
    let (r, g) := g.draw
    (r * canvasWidth, g)
  | 1, g =>
    let (r, g) := g.draw
    (r * canvasWidth, g)
  | n + 2, g =>
    let (r, g) := g.draw
    let x := r * canvasWidth
    if |x - shipX| < safetyRadius then findSpawnX canvasWidth shipX safetyRadius (n + 1) g
    else (x, g)

/-- `spawnMeteoroid()` (loop.ts lines 355-389): weighted type selection,
20/40/40 size selection, safety-margin-rejected x, y just above the top
edge, construction with the live HP bonus, and append to the registry. -/
def spawnMeteoroid (env : Env) (s : LoopState) (g : Rng) : LoopState × Rng :=
  let (rType, g) := g.draw
  let meteoroidConfig := selectMeteoruidType env.cfg rType
  let (rand, g) := g.draw
  let size : SizeType :=
    if rand < 0.2 then .L else if rand < 0.2 + 0.4 then .M else .S
  let safetyRadius := env.cfg.spawn.margin
  let (x, g) := findSpawnX env.canvasWidth s.ship.x safetyRadius 10 g
  let y := -env.cfg.spawn.margin
  let (meteoroid, g) :=
    mkMeteoroid x y size meteoroidConfig env.cfg.angularFallDegrees s.currentHpBonus g
  ({ s with meteoroids := s.meteoroids ++ [meteoroid] }, g)

/-- `spawnPowerUp()` (loop.ts lines 391-406): uniform type among the three
kinds, uniform x, y = -50.  (`Math.random() < 1` keeps the floor index in
range; the `getD` default is unreachable.) -/
def spawnPowerUp (env : Env) (s : LoopState) (g : Rng) : LoopState × Rng :=
  let types : List PowerUpType := [.plusOneLife, .rapidFire, .scoreMultiplier]
  let (r1, g) := g.draw
  let randomType := types.getD (Int.toNat ⌊r1 * types.length⌋) .scoreMultiplier
  let (r2, g) := g.draw
  let x := r2 * env.canvasWidth
  let y : ℝ := -50
  ({ s with powerUps := s.powerUps ++ [mkPowerUp x y randomType env.cfg.powerUps] }, g)

/-- `spawnAd()` (loop.ts lines 408-427): skip when no texts are
configured, otherwise a uniform text and a uniform x at y = -50. -/
def spawnAd (env : Env) (s : LoopState) (g : Rng) : LoopState × Rng :=
  let texts := env.cfg.ads.texts
  if texts.length = 0 then (s, g)
  else
    let (r1, g) := g.draw
    let randomText := texts.getD (Int.toNat ⌊r1 * texts.length⌋) ""
    let (r2, g) := g.draw
    let x := r2 * env.canvasWidth
    let y : ℝ := -50
    ({ s with ads := s.ads ++ [mkAd x y randomText env.cfg.ads] }, g)

/-- `applyPowerUpEffect(type, currentTime)` (loop.ts lines 705-738):
`+1life` adds a life below the configured max; `rapidFire` advances the
level below its max and applies the level's fire rate and barrel count to
the ship; `scoreMultiplier` sets the multiplier and its expiry. -/
def applyPowerUpEffect (env : Env) (type : PowerUpType) (currentTime : ℝ)
    (s : LoopState) : LoopState :=
  match type with
  | .plusOneLife =>
    if s.ship.lives < env.cfg.ship.lives.max then
      { s with ship := { s.ship with lives := s.ship.lives + 1 } }
    else s
  | .rapidFire =>
    if s.rapidFireLevel < env.cfg.powerUps.rapidFireMaxLevel then
      let level := s.rapidFireLevel + 1
      let levelConfig := env.cfg.powerUps.rapidFireLevels level
      { s with
        rapidFireLevel := level
        ship := (s.ship.setFireRate levelConfig.fireRate).setBarrels levelConfig.barrels }
    else s
  | .scoreMultiplier =>
    { s with
      scoreMultiplier := env.cfg.powerUps.scoreMultiplierMult
      scoreMultiplierEndTime := currentTime + env.cfg.powerUps.scoreMultiplierDurationMs }

/-- The score for a destroyed meteoroid (loop.ts lines 566-578): base by
type (with fireball doubled), times the size multiplier, times the live
score multiplier. -/
def meteoroidPoints (meteoroidType : String) (sizeType : SizeType)
    (scoreMultiplier : ℝ) : ℝ :=
  let baseScore : ℝ :=
    if meteoroidType = "basalt" then 10
    else if meteoroidType = "ice" then 15
    else if meteoroidType = "fireball" then 25
    else 20
  let baseScore := if meteoroidType = "fireball" then baseScore * 2 else baseScore
  let sizeMultiplier : ℝ :=
    match sizeType with
    | .L => 3
    | .M => 2
    | .S => 1
  baseScore * sizeMultiplier * scoreMultiplier

/-- One iteration of the projectile-meteoroid resolution loop (loop.ts
lines 463-587): skip records whose stored meteoroid or projectile index is
out of bounds; otherwise damage the meteoroid (writing the decremented HP
back), emit impact/damage-burst particles, release and remove the
projectile, and on destruction emit the explosion bursts, remove the
meteoroid, append its split children and add score.  (Screen shake, the
static fireworks and the `setTimeout`-delayed bursts are render-only or
asynchronous.) -/
def processPMRecord (env : Env) (collision : PMRecord) (s : LoopState) (g : Rng) :
    LoopState × Rng :=
  let meteoroidIndex := collision.meteoroidIndex
  let projectileIndex := collision.projectileIndex
  if meteoroidIndex ≥ s.meteoroids.length then (s, g)
  else if projectileIndex ≥ s.projectiles.length then (s, g)
  else
    match s.meteoroids[meteoroidIndex]?, s.projectiles[projectileIndex]? with
    | some meteoroid, some projectile =>
      let (isDestroyed, meteoroid') := meteoroid.takeDamage collision.damage
      let (ps1, g) := createImpactEffect projectile.x projectile.y g
      let (ps2, g) := createDamageBurst meteoroid'.x meteoroid'.y meteoroid'.size isDestroyed g
      let s := { s with
        meteoroids := s.meteoroids.set meteoroidIndex meteoroid'
        particles := s.particles ++ ps1 ++ ps2 }
      let s := { s with
        projectilePool := ObjectPool.release projectile s.projectilePool
        projectiles := s.projectiles.eraseIdx projectileIndex }
      if isDestroyed then
        let (ps3, g) := createExplosionEffect meteoroid'.x meteoroid'.y meteoroid'.size g
        let (ps4, g) := createFireworkBurst meteoroid'.x meteoroid'.y meteoroid'.size g
        let (ps5, g) :=
          if meteoroid'.size > 60 then createMegaBurst meteoroid'.x meteoroid'.y meteoroid'.size g
          else ([], g)
        let (splitMeteoroids, g) := meteoroid'.getSplitMeteoroids g
        let s := { s with
          meteoroids := (s.meteoroids.eraseIdx meteoroidIndex) ++ splitMeteoroids
          particles := s.particles ++ ps3 ++ ps4 ++ ps5
          score := s.score +
            meteoroidPoints meteoroid'.cfg.id meteoroid'.sizeType s.scoreMultiplier }
        (s, g)
      else (s, g)
    | _, _ => (s, g)

/-- The projectile-meteoroid resolution loop over the (sorted) batch. -/
def processPMList (env : Env) (records : List PMRecord) (s : LoopState) (g : Rng) :
    LoopState × Rng :=
  records.foldl (fun acc r => processPMRecord env r acc.1 acc.2) (s, g)

/-- The ship-meteoroid block (loop.ts lines 594-624): only entered while
the ship can take damage; detection runs against the current meteoroid
registry; only the first record is handled (`break`): explosion particles,
ship damage with its invincibility window, removal of the meteoroid, and
the game-over transition when the ship is destroyed.  (The index comes
from a detection over the current registry, so the `none` arm is
unreachable.) -/
def processShipMeteoroid (env : Env) (currentTime : ℝ) (s : LoopState) (g : Rng) :
    LoopState × Rng :=
  if s.ship.canTakeDamage then
    match checkShipCollisions env.cfg.ship s.ship s.meteoroids with
    | [] => (s, g)
    | collision :: _ =>
      match s.meteoroids[collision.meteoroidIndex]? with
      | none => (s, g)
      | some meteoroid =>
        let (ps1, g) := createExplosionEffect meteoroid.x meteoroid.y meteoroid.size g
        let (ps2, g) := createFireworkBurst meteoroid.x meteoroid.y meteoroid.size g
        let (shipDestroyed, ship') := s.ship.takeDamage currentTime
        let s := { s with
          ship := ship'
          meteoroids := s.meteoroids.eraseIdx collision.meteoroidIndex
          particles := s.particles ++ ps1 ++ ps2 }
        if shipDestroyed then
          ({ s with gameOver := true, gameOverTime := currentTime }, g)
        else (s, g)
  else (s, g)

/-- The ship-powerup resolution loop (loop.ts lines 630-643): the batch
(detected before any resolution ran) is iterated from its last record to
its first; each record's power-up has its effect applied and is removed.
(The power-up registry is unchanged between detection and this loop and
record indices ascend, so reverse iteration keeps every index valid; the
`none` arm models the out-of-bounds access JS would crash on and is
unreachable here.) -/
def processShipPowerUps (env : Env) (currentTime : ℝ) (records : List PURecord)
    (s : LoopState) : LoopState :=
  records.reverse.foldl
    (fun s r =>
      match s.powerUps[r.powerUpIndex]? with
      | none => s
      | some powerUp =>
        let s := applyPowerUpEffect env powerUp.type currentTime s
        { s with powerUps := s.powerUps.eraseIdx r.powerUpIndex })
    s

/-- One iteration of the projectile-powerup resolution loop (loop.ts
lines 658-702): skip records whose stored power-up or projectile index is
out of bounds; otherwise apply the power-up effect and remove both
entities, higher index first. -/
def processPPURecord (env : Env) (currentTime : ℝ) (collision : PPURecord)
    (s : LoopState) : LoopState :=
  let powerUpIndex := collision.powerUpIndex
  let projectileIndex := collision.projectileIndex
  if powerUpIndex ≥ s.powerUps.length then s
  else if projectileIndex ≥ s.projectiles.length then s
  else
    match s.powerUps[powerUpIndex]?, s.projectiles[projectileIndex]? with
    | some powerUp, some projectile =>
      let s := applyPowerUpEffect env powerUp.type currentTime s
      if powerUpIndex ≥ projectileIndex then
        let s := { s with powerUps := s.powerUps.eraseIdx powerUpIndex }
        { s with
          projectilePool := ObjectPool.release projectile s.projectilePool
          projectiles := s.projectiles.eraseIdx projectileIndex }
      else
        let s := { s with
          projectilePool := ObjectPool.release projectile s.projectilePool
          projectiles := s.projectiles.eraseIdx projectileIndex }
        { s with powerUps := s.powerUps.eraseIdx powerUpIndex }
    | _, _ => s

/-- The projectile-powerup resolution loop over the (sorted) batch. -/
def processPPUList (env : Env) (currentTime : ℝ) (records : List PPURecord)
    (s : LoopState) : LoopState :=
  records.foldl (fun s r => processPPURecord env currentTime r s) s

/-- `handleCollisions(currentTime)` (loop.ts lines 440-703): detect the
projectile-meteoroid, ship-powerup and projectile-powerup batches against
the registries as they stand at entry; sort the projectile-meteoroid
batch by descending meteoroid index and resolve it; then the ship
-meteoroid block (detected fresh, only while the ship can take damage);
then the ship-powerup batch in reverse order; then the projectile-powerup
batch sorted by descending indices. -/
def handleCollisions (env : Env) (currentTime : ℝ) (s : LoopState) (g : Rng) :
    LoopState × Rng :=
  let projectileCollisions := checkProjectileCollisions s.projectiles s.meteoroids
  let powerUpCollisions := checkPowerUpCollisions env.cfg.ship s.ship s.powerUps
  let projectilePowerUpCollisions :=
    checkProjectilePowerUpCollisions s.projectiles s.powerUps
  let sorted := sortPMByMeteoroidDesc projectileCollisions
  let (s, g) := processPMList env sorted s g
  let (s, g) := processShipMeteoroid env currentTime s g
  let s := processShipPowerUps env currentTime powerUpCollisions s
  let sortedPPU := sortPPUDesc projectilePowerUpCollisions
  let s := processPPUList env currentTime sortedPPU s
  (s, g)

/-- The normalized per-tick input snapshot the core consumes: the movement
vector, the pause flag, and whether this frame's click landed on the retry
button (`consumeMouseClick` + `isRetryButtonClicked`; the button geometry
is render state, outside the core). -/
structure InputState where
  moveX : ℝ
  moveY : ℝ
  isPaused : Bool
  restartClick : Bool

/-- The ship-update step of a running tick (loop.ts lines 118-126): run
`ship.update` (movement, clamping, invincibility expiry, autofire via the
projectile pool) and push the new projectiles. -/
def shipUpdatePhase (env : Env) (dt currentTime : ℝ) (input : InputState)
    (s : LoopState) : LoopState :=
  { s with
    ship := (Ship.update env.cfg.ship dt input.moveX input.moveY env.canvasWidth
      env.canvasHeight currentTime s.ship s.projectilePool).1
    projectilePool := (Ship.update env.cfg.ship dt input.moveX input.moveY env.canvasWidth
      env.canvasHeight currentTime s.ship s.projectilePool).2.2
    projectiles := s.projectiles ++
      (Ship.update env.cfg.ship dt input.moveX input.moveY env.canvasWidth
        env.canvasHeight currentTime s.ship s.projectilePool).2.1 }

/-- The three spawn gates of a running tick (loop.ts lines 128-164):
meteoroid (rate gate), power-up (interval gate) and ad (interval gate,
only when enabled); each successful gate stamps its last-spawn time. -/
def spawnPhase (env : Env) (currentTime : ℝ) (s : LoopState) (g : Rng) :
    LoopState × Rng :=
  let (s, g) :=
    if meteoroidSpawnGate env.cfg.spawn currentTime s.gameStartTime s.lastMeteorospawnTime then
      let (s, g) := spawnMeteoroid env s g
      ({ s with lastMeteorospawnTime := currentTime }, g)
    else (s, g)
  let (s, g) :=
    if currentTime - s.lastPowerUpSpawnTime > env.cfg.powerUps.spawnFrequencySeconds * 1000 then
      let (s, g) := spawnPowerUp env s g
      ({ s with lastPowerUpSpawnTime := currentTime }, g)
    else (s, g)
  if env.cfg.ads.enabled ∧
      currentTime - s.lastAdSpawnTime > env.cfg.ads.spawnIntervalSeconds * 1000 then
    let (s, g) := spawnAd env s g
    ({ s with lastAdSpawnTime := currentTime }, g)
  else (s, g)

/-- The per-kind entity update/removal sweeps and the score-multiplier
expiry of a running tick (loop.ts lines 166-235).  The reverse-index
removal sweeps are expressed as map-then-filter (updates are element-wise
and each removal only drops the element just updated); dead projectiles
are released to the pool from the highest index down, as the reverse loop
does. -/
def entitySweepPhase (env : Env) (dt currentTime : ℝ) (s : LoopState) : LoopState :=
  let updatedProjectiles := s.projectiles.map (Projectile.update dt)
  let deadProjectiles := updatedProjectiles.filter fun p => ¬p.alive
  let pool := deadProjectiles.reverse.foldl (fun pool p => ObjectPool.release p pool)
    s.projectilePool
  let s : LoopState := { s with
    projectiles := updatedProjectiles.filter fun p => p.alive = true
    projectilePool := pool }
  let s : LoopState := { s with
    meteoroids :=
      (s.meteoroids.map fun (m : Meteoroid) =>
        ((m.setSpeedMultiplier s.currentSpeedMultiplier).setHpBonus s.currentHpBonus).update
      ).filter fun m => ¬m.isOffScreen env.canvasHeight env.canvasWidth }
  let s : LoopState := { s with
    powerUps := (s.powerUps.map (PowerUp.update dt)).filter fun u =>
      ¬u.isOffScreen env.canvasHeight }
  let s : LoopState := { s with
    ads := (s.ads.map (Ad.update dt)).filter fun a => ¬a.isOffScreen env.canvasHeight }
  if s.scoreMultiplierEndTime > 0 ∧ currentTime ≥ s.scoreMultiplierEndTime then
    { s with scoreMultiplier := 1, scoreMultiplierEndTime := 0 }
  else s

/-- The gameplay part of a running, unpaused tick (loop.ts lines
117-242): ship update and autofire, the three spawn gates, the per-kind
entity update/removal sweeps and score-multiplier expiry, collision
handling, and the particle update. -/
def runningTick (env : Env) (dt currentTime : ℝ) (input : InputState)
    (s : LoopState) (g : Rng) : LoopState × Rng :=
  let s := shipUpdatePhase env dt currentTime input s
  let (s, g) := spawnPhase env currentTime s g
  let s := entitySweepPhase env dt currentTime s
  let (s, g) := handleCollisions env currentTime s g
  let s := { s with particles := particlesUpdate dt s.particles }
  (s, g)

/-- `update(dt, currentTime)` (loop.ts lines 85-243): while game over,
only a retry click does anything (a full synchronous restart); otherwise
stamp the game start time on the first tick, advance difficulty, and —
only while not paused — run the gameplay tick. -/
def updateTick (env : Env) (dt currentTime : ℝ) (input : InputState) (g : Rng)
    (s : LoopState) : LoopState :=
  if s.gameOver then
    if input.restartClick then restartGame env currentTime s else s
  else
    let s := if s.gameStartTime = 0 then { s with gameStartTime := currentTime } else s
    let s := updateDifficulty env currentTime s
    if input.isPaused then s
    else (runningTick env dt currentTime input s g).1

/-- `FIXED_STEP = 1000 / 60` (ms); ticks run with `dt = FIXED_STEP / 1000`
seconds. -/
def FIXED_STEP : ℝ := 1000 / 60

/-- Everything one executed tick consumes besides the previous state: the
tick duration, the wall-clock `now` passed by `loop`, the input snapshot,
and the random draws consumed during the tick. -/
structure TickIn where
  dt : ℝ
  now : ℝ
  input : InputState
  g : Rng

/-- `RunTicks env s ins s'`: starting from `s`, executing one tick per
entry of `ins` (in order) ends in state `s'`. -/
inductive RunTicks (env : Env) : LoopState → List TickIn → LoopState → Prop
  | nil (s : LoopState) : RunTicks env s [] s
  | cons {s s' s'' : LoopState} {i : TickIn} {ins : List TickIn} :
      updateTick env i.dt i.now i.input i.g s = s' →
      RunTicks env s' ins s'' →
      RunTicks env s (i :: ins) s''

/-! ## Ordering of size classes and reachability -/

/-- The order of the size classes (`Large > Medium > Small`): a child is
of a strictly smaller size class than its parent iff its rank is lower. -/
def sizeRank : SizeType → ℕ
  | .L => 2
  | .M => 1
  | .S => 0

/-- The states reachable in one session: the `startGameLoop` initial state
and everything `update` (one executed fixed-step tick, with arbitrary
wall-clock time, input snapshot and random draws) can produce from a
reachable state. -/
inductive Reachable (env : Env) : LoopState → Prop
  | init : Reachable env (initState env)
  | step {s : LoopState} (dt currentTime : ℝ) (input : InputState) (g : Rng) :
      Reachable env s → Reachable env (updateTick env dt currentTime input g s)

/-- The lives invariant: lives within `[0, configured max]`, and while
the game is not over the ship still holds at least one life (so the
instant lives reach 0 the game-over transition has happened). -/
def LivesInv (env : Env) (s : LoopState) : Prop :=
  0 ≤ s.ship.lives ∧ s.ship.lives ≤ env.cfg.ship.lives.max ∧
    (s.gameOver = false → 1 ≤ s.ship.lives)

/-! ## Concrete configurations and states used by witnesses and
counterexamples

The numbers follow the repository's documented default configuration
(`mvp_dream.md`): basalt meteoroids with HP `{L:3, M:2, S:1}` and splits
`{L:[2,"M"], M:[2,"S"], S:null}`, ship lives 3 of max 5, rapid-fire
levels 1..4. -/

/-- The basalt meteoroid type of the deployed configuration. -/
def basaltCfg : MeteoroidCfg :=
  { id := "basalt"
    hpL := 3, hpM := 2, hpS := 1
    splitL := some (2, .M), splitM := some (2, .S)
    speedMin := 1, speedMax := 3
    spinMin := -10, spinMax := 10
    weight := 1 }

/-- A ship configuration with autofire off (used where a tick must be
evaluated without the fire-cooldown branch). -/
def testShipCfg : ShipCfg :=
  { autoFire := false, moveSpeed := 480
    lives := { start := 3, max := 5 }
    collisionRadiusScale := 1 }

/-- The projectile configuration. -/
def testProjectileCfg : ProjectileCfg :=
  { speed := 800, fireRate := 2 }

/-- A spawn configuration with a flat ramp (`k = 0`), so concrete rates
evaluate exactly. -/
def testSpawnCfg : SpawnCfg :=
  { margin := 50, basePerSecond := 2, rateRampK := 0 }

/-- The spawn configuration of the documented scenario:
`baseRate = 2.5`, `k = 0.06`. -/
def rampSpawnCfg : SpawnCfg :=
  { margin := 50, basePerSecond := 2.5, rateRampK := 0.06 }

/-- The documented rapid-fire level table (levels 1..4). -/
def testRapidFireLevels : ℕ → RapidFireLevelCfg := fun n =>
  if n = 1 then { fireRate := 6, barrels := 2 }
  else if n = 2 then { fireRate := 8, barrels := 3 }
  else if n = 3 then { fireRate := 10, barrels := 4 }
  else { fireRate := 12, barrels := 5 }

/-- The power-up configuration. -/
def testPowerUpsCfg : PowerUpsCfg :=
  { spawnFrequencySeconds := 10, speed := 50
    rapidFireMaxLevel := 4
    rapidFireLevels := testRapidFireLevels
    scoreMultiplierMult := 2, scoreMultiplierDurationMs := 10000 }

/-- Ads disabled (their default). -/
def testAdsCfg : AdsCfg :=
  { enabled := false, spawnIntervalSeconds := 30, fallSpeed := 2, texts := [] }

/-- Difficulty scaling disabled. -/
def offDifficultyCfg : DifficultyCfg :=
  { makeItDifficult := false
    delayBeforeIncreaseSeconds := 5
    speedIncreaseIntervalSeconds := 10
    speedMultiplierPerIncrease := 1.2
    maxSpeedMultiplier := 3
    hpIncreaseIntervalSeconds := 10
    hpIncreaseAmount := 1
    maxHpIncrease := 5 }

/-- Difficulty scaling enabled, 5 s delay, 10 s intervals, x1.2 speed
steps up to x3, +1 HP steps up to +5. -/
def onDifficultyCfg : DifficultyCfg :=
  { offDifficultyCfg with makeItDifficult := true }

/-- The configuration used by witnesses (difficulty off). -/
def testConfig : GameConfig :=
  { ship := testShipCfg
    projectile := testProjectileCfg
    spawn := testSpawnCfg
    meteoroids := [basaltCfg]
    angularFallDegrees := 0
    powerUps := testPowerUpsCfg
    ads := testAdsCfg
    difficulty := offDifficultyCfg }

/-- An 800x600 canvas with `testConfig`. -/
def testEnv : Env :=
  { cfg := testConfig, canvasWidth := 800, canvasHeight := 600 }

/-- `testEnv` with difficulty scaling enabled. -/
def diffEnv : Env :=
  { testEnv with cfg := { testConfig with difficulty := onDifficultyCfg } }

/-- A random stream that always draws `r`. -/
def constRng (r : ℝ) : Rng :=
  { seq := fun _ => r, idx := 0 }

/-- A state one tick before a meteoroid spawn: game started at 1000 ms,
no live entities, ship parked (and invincible far into the future, so the
ship-meteoroid detection is gated off), the power-up gate closed. -/
def detC1State : LoopState :=
  { initState testEnv with
    gameStartTime := 1000
    lastPowerUpSpawnTime := 2000
    ship := { (initState testEnv).ship with
      invincible := true
      invincibilityEndTime := 1000000000 } }

/-- The input snapshot of the determinism counterexample: no movement,
not paused, no retry click. -/
def idleInput : InputState :=
  { moveX := 0, moveY := 0, isPaused := false, restartClick := false }

/-- A large basalt meteoroid at the origin with 5 HP (so two hits do not
destroy it). -/
def pmMeteoroid : Meteoroid :=
  { x := 0, y := 0, vx := 0, vy := 2, size := 64, speed := 2
    rotation := 0, rotationSpeed := 0
    hp := 5, baseHp := 5
    sizeType := .L, cfg := basaltCfg
    baseSpeed := 2, baseVx := 0, baseVy := 2
    angularFallDegrees := 0, speedMultiplier := 1, hpBonus := 0 }

/-- The projectile registry of the index-sorting counterexample:
projectiles 0 and 1 overlap the meteoroid, projectile 2 does not. -/
def pmProjectiles : List Projectile :=
  [{ x := 0, y := 0, width := 8, height := 16, speed := 800, alive := true },
   { x := 1, y := 0, width := 8, height := 16, speed := 800, alive := true },
   { x := 1000, y := 0, width := 8, height := 16, speed := 800, alive := true }]

/-- The state of the index-sorting counterexample. -/
def pmCEState : LoopState :=
  { initState testEnv with
    projectiles := pmProjectiles
    meteoroids := [pmMeteoroid] }

/-- A running state right before a difficulty step: difficulty active,
both interval timers long overdue. -/
def pausedCEState : LoopState :=
  { initState testEnv with
    gameStartTime := 1000
    difficultyStarted := true
    lastSpeedIncreaseTime := 0
    lastHpIncreaseTime := 0 }

/-- The paused input snapshot. -/
def pausedInput : InputState :=
  { moveX := 0, moveY := 0, isPaused := true, restartClick := false }

/-- The retry-click input snapshot. -/
def restartInput : InputState :=
  { moveX := 0, moveY := 0, isPaused := false, restartClick := true }

/-- A game-over state with one live particle and a drained projectile
pool (both differ from their start-of-session initial values). -/
def restartCEState : LoopState :=
  { initState testEnv with
    gameOver := true
    gameOverTime := 4000
    score := 120
    particles := [{ x := 10, y := 20, vx := 0, vy := 0
                    life := 0, maxLife := 3, size := 4, color := "#ffffff" }]
    projectilePool := { (initState testEnv).projectilePool with pool := [] } }

/-- A pool whose single pre-warmed instance (`createFn` result `7`) was
never reset (`resetFn` is the constant `0`), with a free list already at
its maximum size of 1. -/
def poolCE : ObjectPool ℤ :=
  ObjectPool.mk' 7 (fun _ => 0) 1 1

/-- A small pool with room in the free list, for the round-trip witness. -/
def poolW : ObjectPool ℤ :=
  ObjectPool.mk' 7 (fun _ => 0) 0 10

/-! # Theorems -/

/-! ## C8 — object pool round trip -/

/-- C8, as stated, fails: the constructor pre-populates the free list
with `initialSize` results of `createFn` and never resets them, and
`release` drops the instance when the free list is full.  In `poolCE`
(`createFn` result 7, reset baseline 0, one pre-warmed instance, max size
1), `release(5); acquire()` returns the never-reset pre-warmed instance
`7`, which differs from the reset baseline `0`. -/
theorem C8_pool_counterexample :
    (ObjectPool.acquire (ObjectPool.release 5 poolCE)).1 = 7 ∧
    poolCE.resetFn 5 = 0 ∧ poolCE.resetFn 7 = 0 ∧ (7 : ℤ) ≠ 0 := by
  refine ⟨?_, rfl, rfl, by norm_num⟩
  rfl

/-- C8 (amended): when the free list is below its configured maximum at
release time, `release(x); acquire()` returns exactly `x` with the reset
function applied (not its pre-release field values) and restores the
pool; when the free list is full, `release` drops the instance; and
`acquire` always returns an instance — the free-list top when the free
list is non-empty, a newly constructed one otherwise. -/
theorem C8_pool_amended {T : Type} (p : ObjectPool T) (x : T) :
    (p.pool.length < p.maxSize →
      ObjectPool.acquire (ObjectPool.release x p) = (p.resetFn x, p)) ∧
    (p.maxSize ≤ p.pool.length → ObjectPool.release x p = p) ∧
    (p.pool = [] → p.acquire = (p.createFn, p)) ∧
    (p.pool ≠ [] → (p.acquire).1 ∈ p.pool) := by
  refine ⟨fun h => ?_, fun h => ?_, fun h => ?_, fun h => ?_⟩
  · unfold ObjectPool.release ObjectPool.acquire
    rw [if_pos h]
    simp
  · unfold ObjectPool.release
    rw [if_neg (by omega)]
  · unfold ObjectPool.acquire
    simp [h]
  · unfold ObjectPool.acquire
    rcases hlast : p.pool.getLast? with - | a
    · exact absurd (List.getLast?_eq_none_iff.mp hlast) h
    · simpa using List.mem_of_getLast?_eq_some hlast

/-- C8 witness: the amended round trip at the concrete pool `poolW` and
instance `5`: the returned instance is `5` reset to the baseline `0`. -/
theorem C8_pool_witness :
    ObjectPool.acquire (ObjectPool.release 5 poolW) = (poolW.resetFn 5, poolW) ∧
    poolW.resetFn 5 = 0 :=
  ⟨(C8_pool_amended poolW 5).1 (by norm_num [poolW, ObjectPool.mk']), rfl⟩

/-! ## C2 — spawn-rate ramp and spawn gate -/

/-- C2: the spawn rate used by the spawn gate equals
`min(baseRate * e^(k*t), baseRate * 10)`; with `baseRate = 2.5` and
`k = 0.06` the rate is 2.5/s at `t = 0` and capped at exactly 25/s at
`t = 60`; and (whenever the rate is positive, which it always is for a
positive base rate) the gate fires exactly when the elapsed time since
the last meteoroid spawn exceeds `1/currentSpawnRate` seconds. -/
theorem C2_spawn_rate :
    (∀ (spawn : SpawnCfg) (t : ℝ),
      calculateSpawnRate spawn t =
        min (spawn.basePerSecond * Real.exp (spawn.rateRampK * t))
          (spawn.basePerSecond * 10)) ∧
    calculateSpawnRate rampSpawnCfg 0 = 2.5 ∧
    calculateSpawnRate rampSpawnCfg 60 = 25 ∧
    (∀ (spawn : SpawnCfg) (currentTime gameStartTime lastSpawn : ℝ),
      0 < calculateSpawnRate spawn ((currentTime - gameStartTime) / 1000) →
      (meteoroidSpawnGate spawn currentTime gameStartTime lastSpawn ↔
        (currentTime - lastSpawn) / 1000 >
          1 / calculateSpawnRate spawn ((currentTime - gameStartTime) / 1000))) := by
  have h12 : (2.2 : ℝ) ≤ Real.exp 1.2 := by
    have h := Real.add_one_le_exp (1.2 : ℝ)
    linarith
  have h36 : (10 : ℝ) ≤ Real.exp 3.6 := by
    have h3 : (3.6 : ℝ) = (3 : ℕ) * 1.2 := by norm_num
    have hpow : (2.2 : ℝ) ^ (3 : ℕ) ≤ Real.exp 1.2 ^ (3 : ℕ) :=
      pow_le_pow_left₀ (by norm_num) h12 3
    rw [h3, Real.exp_nat_mul]
    nlinarith [hpow]
  refine ⟨fun spawn t => rfl, ?_, ?_, ?_⟩
  · show min (2.5 * Real.exp (0.06 * 0)) (2.5 * 10) = 2.5
    rw [mul_zero, Real.exp_zero]
    norm_num
  · show min (2.5 * Real.exp (0.06 * 60)) (2.5 * 10) = 25
    have h : (0.06 : ℝ) * 60 = 3.6 := by norm_num
    rw [h]
    rw [min_eq_right (by nlinarith [h36])]
    norm_num
  · intro spawn currentTime gameStartTime lastSpawn hr
    unfold meteoroidSpawnGate
    rw [gt_iff_lt, gt_iff_lt, div_lt_iff₀ hr,
      div_lt_div_iff₀ hr (by norm_num : (0 : ℝ) < 1000)]
    constructor <;> intro h <;> nlinarith

/-- C2 witness: the gate characterization at the concrete flat-ramp
configuration (rate 2/s, elapsed 2 s > 1/2 s), plus the concrete 25/s cap. -/
theorem C2_spawn_rate_witness :
    (meteoroidSpawnGate testSpawnCfg 2000 1000 0 ↔
      ((2000 : ℝ) - 0) / 1000 >
        1 / calculateSpawnRate testSpawnCfg (((2000 : ℝ) - 1000) / 1000)) ∧
    calculateSpawnRate rampSpawnCfg 60 = 25 := by
  refine ⟨C2_spawn_rate.2.2.2 testSpawnCfg 2000 1000 0 ?_, C2_spawn_rate.2.2.1⟩
  show (0 : ℝ) < min (2 * Real.exp (0 * (((2000 : ℝ) - 1000) / 1000))) (2 * 10)
  rw [zero_mul, Real.exp_zero]
  norm_num

/-! ## C7 — invalid-index records are skipped -/

/-- A projectile-meteoroid record whose stored meteoroid or projectile
index is out of bounds resolves to the unchanged state (the source logs a
warning and `continue`s). -/
theorem processPMRecord_oob (env : Env) (r : PMRecord) (s : LoopState) (g : Rng)
    (h : s.meteoroids.length ≤ r.meteoroidIndex ∨
      s.projectiles.length ≤ r.projectileIndex) :
    processPMRecord env r s g = (s, g) := by
  unfold processPMRecord
  rcases h with h | h
  · rw [if_pos (by omega)]
  · by_cases hm : r.meteoroidIndex ≥ s.meteoroids.length
    · rw [if_pos hm]
    · rw [if_neg hm, if_pos (by omega)]

/-- A projectile-powerup record whose stored power-up or projectile index
is out of bounds resolves to the unchanged state. -/
theorem processPPURecord_oob (env : Env) (t : ℝ) (q : PPURecord) (s : LoopState)
    (h : s.powerUps.length ≤ q.powerUpIndex ∨
      s.projectiles.length ≤ q.projectileIndex) :
    processPPURecord env t q s = s := by
  unfold processPPURecord
  rcases h with h | h
  · rw [if_pos (by omega)]
  · by_cases hm : q.powerUpIndex ≥ s.powerUps.length
    · rw [if_pos hm]
    · rw [if_neg hm, if_pos (by omega)]

/-- C7: in both guarded resolution loops (projectile-meteoroid and
projectile-powerup), a record whose stored index is out of bounds at
resolution time is skipped and the remaining records of the batch are
processed as if it were absent; the resolver is a total function, so no
exception is raised and the tick is not aborted. -/
theorem C7_invalid_index_skipped (env : Env) (t : ℝ) (r : PMRecord)
    (rs : List PMRecord) (q : PPURecord) (qs : List PPURecord)
    (s s2 : LoopState) (g : Rng)
    (h1 : s.meteoroids.length ≤ r.meteoroidIndex ∨
      s.projectiles.length ≤ r.projectileIndex)
    (h2 : s2.powerUps.length ≤ q.powerUpIndex ∨
      s2.projectiles.length ≤ q.projectileIndex) :
    processPMList env (r :: rs) s g = processPMList env rs s g ∧
    processPPUList env t (q :: qs) s2 = processPPUList env t qs s2 := by
  constructor
  · show List.foldl _ (processPMRecord env r s g) rs = _
    rw [processPMRecord_oob env r s g h1]
    rfl
  · show List.foldl _ (processPPURecord env t q s2) qs = _
    rw [processPPURecord_oob env t q s2 h2]
    rfl

/-- C7 witness: a stale record with indices (5, 5) against a state with 3
projectiles, 1 meteoroid and no power-ups is skipped by both resolvers. -/
theorem C7_invalid_index_witness :
    processPMList testEnv [⟨5, 5, 1⟩] pmCEState (constRng 0) =
      processPMList testEnv [] pmCEState (constRng 0) ∧
    processPPUList testEnv 0 [⟨5, 5⟩] pmCEState =
      processPPUList testEnv 0 [] pmCEState :=
  C7_invalid_index_skipped testEnv 0 ⟨5, 5, 1⟩ [] ⟨5, 5⟩ [] pmCEState pmCEState
    (constRng 0)
    (Or.inl (by simp [pmCEState]))
    (Or.inl (by simp [pmCEState, initState]))

/-! ## C3 — ship damage opens an invincibility window -/

/-- While the invincibility window is open (`currentTime` still below the
expiry), `Ship.update` does not clear the invincibility flag. -/
theorem Ship.update_keeps_invincible (shipCfg : ShipCfg)
    (dt mx my w h u : ℝ) (s : Ship) (pool : ObjectPool Projectile)
    (hs : s.invincible = true) (hu : u < s.invincibilityEndTime) :
    ((Ship.update shipCfg dt mx my w h u s pool).1).invincible = true := by
  have hcond : (s.invincible = true ∧ u ≥ s.invincibilityEndTime) = False := by
    simp [not_le.mpr hu]
  unfold Ship.update
  simp only [hcond, if_false]
  split
  · exact hs
  · exact hs

/-- C3: resolving a ship-meteoroid collision on a non-invincible ship
decrements lives by exactly one and opens an invincibility window lasting
`invincibilityDuration` from the collision time; while that window is
still open the flag survives `Ship.update`, `takeDamage` is a no-op (so
lives are not decremented), and the collision resolver does not even test
ship-meteoroid collisions (it is gated on `canTakeDamage`). -/
theorem C3_ship_damage_invincibility (env : Env) (s : Ship) (t : ℝ)
    (h : s.invincible = false) :
    ((s.takeDamage t).2.lives = s.lives - 1 ∧
     (s.takeDamage t).2.invincible = true ∧
     (s.takeDamage t).2.invincibilityEndTime = t + s.invincibilityDuration) ∧
    (∀ (dt mx my w ht u : ℝ) (pool : ObjectPool Projectile),
      u < t + s.invincibilityDuration →
      ((Ship.update env.cfg.ship dt mx my w ht u (s.takeDamage t).2 pool).1).invincible
        = true) ∧
    (∀ (s' : Ship) (u : ℝ), s'.invincible = true →
      s'.takeDamage u = (false, s')) ∧
    (∀ (st : LoopState) (u : ℝ) (g : Rng), st.ship.invincible = true →
      processShipMeteoroid env u st g = (st, g)) := by
  have hbool : ¬s.invincible = true := by simp [h]
  refine ⟨?_, ?_, ?_, ?_⟩
  · unfold Ship.takeDamage
    rw [if_neg hbool]
    exact ⟨rfl, rfl, rfl⟩
  · intro dt mx my w ht u pool hu
    have h2 : (s.takeDamage t).2.invincible = true := by
      unfold Ship.takeDamage
      rw [if_neg hbool]
    have h3 : (s.takeDamage t).2.invincibilityEndTime = t + s.invincibilityDuration := by
      unfold Ship.takeDamage
      rw [if_neg hbool]
    exact Ship.update_keeps_invincible env.cfg.ship dt mx my w ht u _ pool h2
      (h3 ▸ hu)
  · intro s' u h'
    unfold Ship.takeDamage
    rw [if_pos h']
  · intro st u g h'
    unfold processShipMeteoroid
    rw [if_neg (by simp [Ship.canTakeDamage, h'])]

/-- C3 witness: a fresh 3-lives ship hit at `t = 1000` drops to 2 lives,
becomes invincible until `t = 3000`, and the resolver is gated off on any
state holding an invincible ship. -/
theorem C3_ship_damage_witness :
    ((mkShip 400 500 testShipCfg testProjectileCfg).takeDamage 1000).2.lives = 2 ∧
    ((mkShip 400 500 testShipCfg testProjectileCfg).takeDamage 1000).2.invincible
      = true ∧
    ((mkShip 400 500 testShipCfg testProjectileCfg).takeDamage 1000).2.invincibilityEndTime
      = 3000 ∧
    processShipMeteoroid testEnv 1500 detC1State (constRng 0) =
      (detC1State, constRng 0) := by
  have h := C3_ship_damage_invincibility testEnv
    (mkShip 400 500 testShipCfg testProjectileCfg) 1000 rfl
  refine ⟨?_, h.1.2.1, ?_, ?_⟩
  · rw [h.1.1]
    norm_num [mkShip, testShipCfg]
  · rw [h.1.2.2]
    norm_num [mkShip]
  · exact h.2.2.2 detC1State 1500 (constRng 0) rfl

/-! ## C10 — splitting is size-monotonic -/

/-- The `Meteoroid` constructor gives the requested size class. -/
theorem mkMeteoroid_sizeType (x y : ℝ) (st : SizeType) (cfg : MeteoroidCfg)
    (a hb : ℝ) (g : Rng) : (mkMeteoroid x y st cfg a hb g).1.sizeType = st :=
  rfl

/-- Every child built by the split loop has the requested size class. -/
theorem splitChildren_sizeType (m : Meteoroid) (count : ℕ) (st : SizeType) :
    ∀ (n : ℕ) (g : Rng) (c : Meteoroid),
      c ∈ (splitChildren m count st n g).1 → c.sizeType = st := by
  intro n
  induction n with
  | zero =>
    intro g c hc
    simp [splitChildren] at hc
  | succ n ih =>
    intro g c hc
    rw [show splitChildren m count st (n + 1) g =
      (let i := count - (n + 1)
       let angle := Real.pi * 2 * i / count
       let offset := m.size * 0.3
       let newX := m.x + Real.cos angle * offset
       let newY := m.y + Real.sin angle * offset
       let (child, g') :=
         mkMeteoroid newX newY st m.cfg m.angularFallDegrees m.hpBonus g
       let child := { child with speed := child.speed * 0.8 }
       let (rest, g'') := splitChildren m count st n g'
       (child :: rest, g'')) from rfl] at hc
    simp only at hc
    rcases List.mem_cons.mp hc with h | h
    · subst h
      rfl
    · exact ih _ c h

/-- C10: with the repository's split tables (`L → (·, M)`, `M → (·, S)`,
`S → null` by the config type), every split child is of a strictly
smaller size class than its parent, and a Small meteoroid's
`getSplitMeteoroids()` is the empty list (the latter unconditionally). -/
theorem C10_split_monotonic (m : Meteoroid) (g : Rng) (nL nM : ℕ)
    (hL : m.cfg.splitL = some (nL, SizeType.M))
    (hM : m.cfg.splitM = some (nM, SizeType.S)) :
    (∀ c ∈ (m.getSplitMeteoroids g).1,
      sizeRank c.sizeType < sizeRank m.sizeType) ∧
    (m.sizeType = SizeType.S → (m.getSplitMeteoroids g).1 = []) := by
  constructor
  · intro c hc
    unfold Meteoroid.getSplitMeteoroids at hc
    cases hst : m.sizeType with
    | L =>
      rw [hst] at hc
      rw [show m.cfg.splitFor SizeType.L = some (nL, SizeType.M) from by
        rw [MeteoroidCfg.splitFor]; exact hL] at hc
      have hcs := splitChildren_sizeType m nL SizeType.M nL g c hc
      rw [hcs]
      decide
    | M =>
      rw [hst] at hc
      rw [show m.cfg.splitFor SizeType.M = some (nM, SizeType.S) from by
        rw [MeteoroidCfg.splitFor]; exact hM] at hc
      have hcs := splitChildren_sizeType m nM SizeType.S nM g c hc
      rw [hcs]
      decide
    | S =>
      rw [hst] at hc
      rw [show m.cfg.splitFor SizeType.S = none from rfl] at hc
      simp at hc
  · intro hst
    unfold Meteoroid.getSplitMeteoroids
    rw [hst]
    rw [show m.cfg.splitFor SizeType.S = none from rfl]

/-- C10 witness: the Large basalt meteoroid `pmMeteoroid` (split tables
`L → (2, M)`, `M → (2, S)`) only yields children of strictly smaller size
classes, whatever the random draws. -/
theorem C10_split_witness :
    basaltCfg.splitL = some (2, SizeType.M) ∧
    basaltCfg.splitM = some (2, SizeType.S) ∧
    ∀ c ∈ (pmMeteoroid.getSplitMeteoroids (constRng 0)).1,
      sizeRank c.sizeType < sizeRank pmMeteoroid.sizeType :=
  ⟨rfl, rfl, (C10_split_monotonic pmMeteoroid (constRng 0) 2 2 rfl rfl).1⟩

/-! ## C6 — batch ordering of the projectile-meteoroid resolver -/

/-- The strict circle-overlap test, rephrased on squared distances (for a
positive radius sum): exactly the test the engine performs, with the
square root eliminated. -/
theorem checkCircleCollision_iff (x1 y1 r1 x2 y2 r2 : ℝ) (h : 0 < r1 + r2) :
    checkCircleCollision x1 y1 r1 x2 y2 r2 ↔
      (x2 - x1) * (x2 - x1) + (y2 - y1) * (y2 - y1) < (r1 + r2) ^ 2 := by
  unfold checkCircleCollision
  exact Real.sqrt_lt' h

/-- The detected batch of the sorting counterexample: projectiles 0 and 1
both overlap meteoroid 0; projectile 2 (at `x = 1000`) does not. -/
theorem pmCE_batch :
    checkProjectileCollisions pmProjectiles [pmMeteoroid] =
      [⟨0, 0, 1⟩, ⟨1, 0, 1⟩] := by
  unfold checkProjectileCollisions pmProjectiles pmMeteoroid
  norm_num [List.range_succ, checkCircleCollision_iff, Projectile.getCollisionRadius,
    Meteoroid.getCollisionRadius, min_def, List.filterMap_cons, List.filterMap_nil]

/-- Resolving an in-bounds projectile-meteoroid record that does not
destroy the meteoroid: the damaged meteoroid is written back and the
projectile at the *stored* index is removed. -/
theorem processPMRecord_hit (env : Env) (r : PMRecord) (s : LoopState) (g : Rng)
    (m : Meteoroid) (p : Projectile)
    (hm : s.meteoroids[r.meteoroidIndex]? = some m)
    (hp : s.projectiles[r.projectileIndex]? = some p)
    (hnd : ¬ m.hp - r.damage ≤ 0) :
    (processPMRecord env r s g).1.projectiles =
      s.projectiles.eraseIdx r.projectileIndex ∧
    (processPMRecord env r s g).1.meteoroids =
      s.meteoroids.set r.meteoroidIndex { m with hp := m.hp - r.damage } := by
  have hmlen : r.meteoroidIndex < s.meteoroids.length :=
    (List.getElem?_eq_some_iff.mp hm).1
  have hplen : r.projectileIndex < s.projectiles.length :=
    (List.getElem?_eq_some_iff.mp hp).1
  have hdec : decide (m.hp - r.damage ≤ 0) = false := decide_eq_false hnd
  unfold processPMRecord
  rw [if_neg (by omega), if_neg (by omega)]
  rw [hm, hp]
  simp only [Meteoroid.takeDamage, hdec]
  exact ⟨rfl, rfl⟩

/-- C6, as stated, fails: the source sorts the batch by descending
meteoroid index only.  On the concrete state `pmCEState` the sorted batch
carries projectile indices `[0, 1]` — ascending, not descending — and
resolving it removes projectile 0 and then the entity *currently* at
index 1, which by then is the non-colliding projectile originally at
index 2; the colliding projectile at original index 1 (marker `x = 1`)
survives.  So a removal performed while resolving the batch does change
which entity a later record's stored indices denote. -/
theorem C6_sort_counterexample :
    sortPMByMeteoroidDesc (checkProjectileCollisions pmProjectiles [pmMeteoroid]) =
      [⟨0, 0, 1⟩, ⟨1, 0, 1⟩] ∧
    ¬ ((sortPMByMeteoroidDesc
        (checkProjectileCollisions pmProjectiles [pmMeteoroid])).map
          PMRecord.projectileIndex).Sorted (· ≥ ·) ∧
    ((processPMList testEnv
        (sortPMByMeteoroidDesc (checkProjectileCollisions pmProjectiles [pmMeteoroid]))
        pmCEState (constRng 0)).1.projectiles.map Projectile.x) = [1] := by
  have hsorted : sortPMByMeteoroidDesc
      (checkProjectileCollisions pmProjectiles [pmMeteoroid]) =
      [⟨0, 0, 1⟩, ⟨1, 0, 1⟩] := by
    rw [pmCE_batch]
    exact List.mergeSort_of_sorted (by simp)
  refine ⟨hsorted, ?_, ?_⟩
  · rw [hsorted]
    intro h
    simp [List.Sorted] at h
  · rw [hsorted]
    show ((processPMRecord testEnv ⟨1, 0, 1⟩
        (processPMRecord testEnv ⟨0, 0, 1⟩ pmCEState (constRng 0)).1
        (processPMRecord testEnv ⟨0, 0, 1⟩ pmCEState (constRng 0)).2).1.projectiles.map
          Projectile.x) = [1]
    have h1 := processPMRecord_hit testEnv ⟨0, 0, 1⟩ pmCEState (constRng 0)
      pmMeteoroid
      { x := 0, y := 0, width := 8, height := 16, speed := 800, alive := true }
      rfl rfl (by norm_num [pmMeteoroid])
    have hm2 : ((processPMRecord testEnv ⟨0, 0, 1⟩ pmCEState (constRng 0)).1.meteoroids)[(0 : ℕ)]?
        = some { pmMeteoroid with hp := pmMeteoroid.hp - 1 } := by
      rw [h1.2]
      rfl
    have hp2 : ((processPMRecord testEnv ⟨0, 0, 1⟩ pmCEState (constRng 0)).1.projectiles)[(1 : ℕ)]?
        = some { x := 1000, y := 0, width := 8, height := 16, speed := 800, alive := true } := by
      rw [h1.1]
      rfl
    have h2 := processPMRecord_hit testEnv ⟨1, 0, 1⟩
      (processPMRecord testEnv ⟨0, 0, 1⟩ pmCEState (constRng 0)).1
      (processPMRecord testEnv ⟨0, 0, 1⟩ pmCEState (constRng 0)).2
      { pmMeteoroid with hp := pmMeteoroid.hp - 1 }
      { x := 1000, y := 0, width := 8, height := 16, speed := 800, alive := true }
      hm2 hp2 (by norm_num [pmMeteoroid])
    rw [h2.1, h1.1]
    rfl

/-- C6 (amended): the projectile-meteoroid batch is processed sorted by
descending *meteoroid* index only — the sort is a permutation of the
detected batch that is monotonically non-increasing in the meteoroid
index; projectile indices are not sorted, and a record whose projectile
index was invalidated by an earlier removal is skipped when out of bounds
(C7) but denotes the entity currently at that index when still in
bounds. -/
theorem C6_sort_amended (records : List PMRecord) :
    (sortPMByMeteoroidDesc records).Pairwise
      (fun a b => b.meteoroidIndex ≤ a.meteoroidIndex) ∧
    (sortPMByMeteoroidDesc records).Perm records := by
  unfold sortPMByMeteoroidDesc
  constructor
  · have h := @List.sorted_mergeSort PMRecord
      (fun a b : PMRecord => decide (b.meteoroidIndex ≤ a.meteoroidIndex))
      (fun a b c hab hbc => by
        simp only [decide_eq_true_eq] at *
        omega)
      (fun a b => by
        rcases Nat.le_total b.meteoroidIndex a.meteoroidIndex with h | h <;> simp [h])
      records
    exact h.imp fun hab => of_decide_eq_true hab
  · exact List.mergeSort_perm records _

/-! ## C5 — paused ticks -/

/-- The speed-increase block only writes its two difficulty fields. -/
theorem difficultySpeedStep_proj (env : Env) (t : ℝ) (s : LoopState) :
    (difficultySpeedStep env t s).projectiles = s.projectiles ∧
    (difficultySpeedStep env t s).meteoroids = s.meteoroids ∧
    (difficultySpeedStep env t s).powerUps = s.powerUps ∧
    (difficultySpeedStep env t s).ads = s.ads ∧
    (difficultySpeedStep env t s).particles = s.particles ∧
    (difficultySpeedStep env t s).ship = s.ship ∧
    (difficultySpeedStep env t s).projectilePool = s.projectilePool ∧
    (difficultySpeedStep env t s).score = s.score ∧
    (difficultySpeedStep env t s).rapidFireLevel = s.rapidFireLevel ∧
    (difficultySpeedStep env t s).scoreMultiplier = s.scoreMultiplier ∧
    (difficultySpeedStep env t s).scoreMultiplierEndTime = s.scoreMultiplierEndTime ∧
    (difficultySpeedStep env t s).gameOver = s.gameOver ∧
    (difficultySpeedStep env t s).lastMeteorospawnTime = s.lastMeteorospawnTime ∧
    (difficultySpeedStep env t s).lastPowerUpSpawnTime = s.lastPowerUpSpawnTime ∧
    (difficultySpeedStep env t s).lastAdSpawnTime = s.lastAdSpawnTime := by
  refine ⟨?_, ?_, ?_, ?_, ?_, ?_, ?_, ?_, ?_, ?_, ?_, ?_, ?_, ?_, ?_⟩ <;>
    (simp only [difficultySpeedStep]; repeat' split) <;> rfl

/-- The HP-increase block only writes its two difficulty fields. -/
theorem difficultyHpStep_proj (env : Env) (t : ℝ) (s : LoopState) :
    (difficultyHpStep env t s).projectiles = s.projectiles ∧
    (difficultyHpStep env t s).meteoroids = s.meteoroids ∧
    (difficultyHpStep env t s).powerUps = s.powerUps ∧
    (difficultyHpStep env t s).ads = s.ads ∧
    (difficultyHpStep env t s).particles = s.particles ∧
    (difficultyHpStep env t s).ship = s.ship ∧
    (difficultyHpStep env t s).projectilePool = s.projectilePool ∧
    (difficultyHpStep env t s).score = s.score ∧
    (difficultyHpStep env t s).rapidFireLevel = s.rapidFireLevel ∧
    (difficultyHpStep env t s).scoreMultiplier = s.scoreMultiplier ∧
    (difficultyHpStep env t s).scoreMultiplierEndTime = s.scoreMultiplierEndTime ∧
    (difficultyHpStep env t s).gameOver = s.gameOver ∧
    (difficultyHpStep env t s).lastMeteorospawnTime = s.lastMeteorospawnTime ∧
    (difficultyHpStep env t s).lastPowerUpSpawnTime = s.lastPowerUpSpawnTime ∧
    (difficultyHpStep env t s).lastAdSpawnTime = s.lastAdSpawnTime := by
  refine ⟨?_, ?_, ?_, ?_, ?_, ?_, ?_, ?_, ?_, ?_, ?_, ?_, ?_, ?_, ?_⟩ <;>
    (simp only [difficultyHpStep]; repeat' split) <;> rfl

/-- `updateDifficulty` only ever writes the five difficulty fields: every
other component of the state is unchanged. -/
theorem updateDifficulty_proj (env : Env) (t : ℝ) (s : LoopState) :
    (updateDifficulty env t s).projectiles = s.projectiles ∧
    (updateDifficulty env t s).meteoroids = s.meteoroids ∧
    (updateDifficulty env t s).powerUps = s.powerUps ∧
    (updateDifficulty env t s).ads = s.ads ∧
    (updateDifficulty env t s).particles = s.particles ∧
    (updateDifficulty env t s).ship = s.ship ∧
    (updateDifficulty env t s).projectilePool = s.projectilePool ∧
    (updateDifficulty env t s).score = s.score ∧
    (updateDifficulty env t s).rapidFireLevel = s.rapidFireLevel ∧
    (updateDifficulty env t s).scoreMultiplier = s.scoreMultiplier ∧
    (updateDifficulty env t s).scoreMultiplierEndTime = s.scoreMultiplierEndTime ∧
    (updateDifficulty env t s).gameOver = s.gameOver ∧
    (updateDifficulty env t s).lastMeteorospawnTime = s.lastMeteorospawnTime ∧
    (updateDifficulty env t s).lastPowerUpSpawnTime = s.lastPowerUpSpawnTime ∧
    (updateDifficulty env t s).lastAdSpawnTime = s.lastAdSpawnTime := by
  obtain ⟨a1, a2, a3, a4, a5, a6, a7, a8, a9, a10, a11, a12, a13, a14, a15⟩ :=
    difficultySpeedStep_proj env t s
  obtain ⟨b1, b2, b3, b4, b5, b6, b7, b8, b9, b10, b11, b12, b13, b14, b15⟩ :=
    difficultyHpStep_proj env t (difficultySpeedStep env t s)
  simp only [updateDifficulty]
  repeat' split
  all_goals first
    | exact ⟨rfl, rfl, rfl, rfl, rfl, rfl, rfl, rfl, rfl, rfl, rfl, rfl, rfl, rfl, rfl⟩
    | exact ⟨b1.trans a1, b2.trans a2, b3.trans a3, b4.trans a4, b5.trans a5,
        b6.trans a6, b7.trans a7, b8.trans a8, b9.trans a9, b10.trans a10,
        b11.trans a11, b12.trans a12, b13.trans a13, b14.trans a14, b15.trans a15⟩

/-- C5, as stated, fails: `updateDifficulty` runs *before* the pause
check, so a paused tick can still mutate difficulty state.  From
`pausedCEState` (difficulty active, speed interval overdue), one paused
tick at `t = 20000` raises the speed multiplier from 1 to 1.2. -/
theorem C5_paused_counterexample :
    pausedInput.isPaused = true ∧
    pausedCEState.gameOver = false ∧
    pausedCEState.currentSpeedMultiplier = 1 ∧
    (updateTick diffEnv (1 / 60) 20000 pausedInput (constRng 0)
        pausedCEState).currentSpeedMultiplier = 1.2 ∧
    ((1.2 : ℝ) ≠ 1) := by
  refine ⟨rfl, rfl, rfl, ?_, by norm_num⟩
  norm_num [updateTick, updateDifficulty, difficultySpeedStep, difficultyHpStep,
    pausedCEState, diffEnv, onDifficultyCfg, offDifficultyCfg, testConfig, initState,
    pausedInput, testEnv]

/-- C5 (amended): a paused, non-game-over tick leaves the entity
registries (projectiles, meteoroids, power-ups, ads, particles), the
ship, the projectile pool, the score, the rapid-fire level, the score
multiplier and its expiry, the game-over flag and the spawn timers
unchanged; only the game-start stamp (on the very first tick) and the
difficulty state (which is advanced before the pause check) may change. -/
theorem C5_paused_amended (env : Env) (dt t : ℝ) (input : InputState) (g : Rng)
    (s : LoopState) (hp : input.isPaused = true) (hg : s.gameOver = false) :
    (updateTick env dt t input g s).projectiles = s.projectiles ∧
    (updateTick env dt t input g s).meteoroids = s.meteoroids ∧
    (updateTick env dt t input g s).powerUps = s.powerUps ∧
    (updateTick env dt t input g s).ads = s.ads ∧
    (updateTick env dt t input g s).particles = s.particles ∧
    (updateTick env dt t input g s).ship = s.ship ∧
    (updateTick env dt t input g s).projectilePool = s.projectilePool ∧
    (updateTick env dt t input g s).score = s.score ∧
    (updateTick env dt t input g s).rapidFireLevel = s.rapidFireLevel ∧
    (updateTick env dt t input g s).scoreMultiplier = s.scoreMultiplier ∧
    (updateTick env dt t input g s).scoreMultiplierEndTime = s.scoreMultiplierEndTime ∧
    (updateTick env dt t input g s).gameOver = s.gameOver ∧
    (updateTick env dt t input g s).lastMeteorospawnTime = s.lastMeteorospawnTime ∧
    (updateTick env dt t input g s).lastPowerUpSpawnTime = s.lastPowerUpSpawnTime ∧
    (updateTick env dt t input g s).lastAdSpawnTime = s.lastAdSpawnTime := by
  have hstep : updateTick env dt t input g s =
      updateDifficulty env t
        (if s.gameStartTime = 0 then { s with gameStartTime := t } else s) := by
    unfold updateTick
    rw [if_neg (by simp [hg])]
    simp only [hp, if_true]
  set s1 := if s.gameStartTime = 0 then { s with gameStartTime := t } else s with hs1
  have hs1proj : s1.projectiles = s.projectiles ∧ s1.meteoroids = s.meteoroids ∧
      s1.powerUps = s.powerUps ∧ s1.ads = s.ads ∧ s1.particles = s.particles ∧
      s1.ship = s.ship ∧ s1.projectilePool = s.projectilePool ∧ s1.score = s.score ∧
      s1.rapidFireLevel = s.rapidFireLevel ∧ s1.scoreMultiplier = s.scoreMultiplier ∧
      s1.scoreMultiplierEndTime = s.scoreMultiplierEndTime ∧
      s1.gameOver = s.gameOver ∧
      s1.lastMeteorospawnTime = s.lastMeteorospawnTime ∧
      s1.lastPowerUpSpawnTime = s.lastPowerUpSpawnTime ∧
      s1.lastAdSpawnTime = s.lastAdSpawnTime := by
    rw [hs1]
    split <;> exact ⟨rfl, rfl, rfl, rfl, rfl, rfl, rfl, rfl, rfl, rfl, rfl, rfl, rfl,
      rfl, rfl⟩
  have hd := updateDifficulty_proj env t s1
  rw [hstep]
  obtain ⟨d1, d2, d3, d4, d5, d6, d7, d8, d9, d10, d11, d12, d13, d14, d15⟩ := hd
  obtain ⟨p1, p2, p3, p4, p5, p6, p7, p8, p9, p10, p11, p12, p13, p14, p15⟩ := hs1proj
  exact ⟨d1.trans p1, d2.trans p2, d3.trans p3, d4.trans p4, d5.trans p5,
    d6.trans p6, d7.trans p7, d8.trans p8, d9.trans p9, d10.trans p10,
    d11.trans p11, d12.trans p12, d13.trans p13, d14.trans p14, d15.trans p15⟩

/-- C5 witness: the amended no-mutation guarantee at the concrete paused
tick of the counterexample state (entity registries, ship, pool, score
and scalars all unchanged even though difficulty advanced). -/
theorem C5_paused_witness :
    (updateTick diffEnv (1 / 60) 20000 pausedInput (constRng 0)
        pausedCEState).meteoroids = pausedCEState.meteoroids ∧
    (updateTick diffEnv (1 / 60) 20000 pausedInput (constRng 0)
        pausedCEState).score = pausedCEState.score :=
  ⟨(C5_paused_amended diffEnv (1 / 60) 20000 pausedInput (constRng 0)
      pausedCEState rfl rfl).2.1,
   (C5_paused_amended diffEnv (1 / 60) 20000 pausedInput (constRng 0)
      pausedCEState rfl rfl).2.2.2.2.2.2.2.1⟩

/-! ## C4 — restart out of game over -/

/-- C4, as stated, fails: `restartGame` does not reinitialize every live
entity collection — the particle registry is left as it was (the source
only comments about clearing it), and the projectile pool is untouched.
`restartCEState` holds one live particle and a drained pool; both survive
the restart unchanged, although their start-of-session values are the
empty registry and a 20-instance pre-warmed free list. -/
theorem C4_restart_counterexample :
    restartCEState.particles ≠ [] ∧
    (restartGame testEnv 5000 restartCEState).particles = restartCEState.particles ∧
    (initState testEnv).particles = [] ∧
    restartCEState.projectilePool.pool.length ≠
      (initState testEnv).projectilePool.pool.length ∧
    (restartGame testEnv 5000 restartCEState).projectilePool =
      restartCEState.projectilePool := by
  refine ⟨by simp [restartCEState, initState], rfl, rfl, ?_, rfl⟩
  simp [restartCEState, initState, mkProjectilePool, ObjectPool.mk']

/-- C4 (amended): ticks in the `GameOver` state perform no entity updates
— without a retry click the state is untouched, and a retry click
performs exactly `restartGame`, which resets the score and power-up
scalars, the game-over flag, all difficulty state, the spawn timers and
the ship to their start-of-session values and clears the projectile,
meteoroid, power-up and ad registries (but not the particle registry or
the projectile pool). -/
theorem C4_restart_amended (env : Env) (dt t : ℝ) (input : InputState) (g : Rng)
    (s : LoopState) (hg : s.gameOver = true) :
    (input.restartClick = false → updateTick env dt t input g s = s) ∧
    (input.restartClick = true → updateTick env dt t input g s = restartGame env t s) ∧
    ((restartGame env t s).score = 0 ∧
     (restartGame env t s).rapidFireLevel = 0 ∧
     (restartGame env t s).scoreMultiplier = 1 ∧
     (restartGame env t s).scoreMultiplierEndTime = 0 ∧
     (restartGame env t s).gameOver = false ∧
     (restartGame env t s).gameOverTime = 0 ∧
     (restartGame env t s).gameStartTime = t ∧
     (restartGame env t s).currentSpeedMultiplier = 1 ∧
     (restartGame env t s).lastSpeedIncreaseTime = 0 ∧
     (restartGame env t s).currentHpBonus = 0 ∧
     (restartGame env t s).lastHpIncreaseTime = 0 ∧
     (restartGame env t s).difficultyStarted = false ∧
     (restartGame env t s).lastMeteorospawnTime = 0 ∧
     (restartGame env t s).lastPowerUpSpawnTime = 0 ∧
     (restartGame env t s).lastAdSpawnTime = 0 ∧
     (restartGame env t s).ship.lives = env.cfg.ship.lives.start ∧
     (restartGame env t s).ship.x = env.canvasWidth / 2 ∧
     (restartGame env t s).ship.y = env.canvasHeight - 100 ∧
     (restartGame env t s).ship.barrels = 1 ∧
     (restartGame env t s).projectiles = [] ∧
     (restartGame env t s).meteoroids = [] ∧
     (restartGame env t s).powerUps = [] ∧
     (restartGame env t s).ads = []) := by
  refine ⟨fun hr => ?_, fun hr => ?_, ?_⟩
  · unfold updateTick
    rw [if_pos hg, if_neg (by simp [hr])]
  · unfold updateTick
    rw [if_pos hg, if_pos hr]
  · exact ⟨rfl, rfl, rfl, rfl, rfl, rfl, rfl, rfl, rfl, rfl, rfl, rfl, rfl, rfl, rfl,
      rfl, rfl, rfl, rfl, rfl, rfl, rfl, rfl⟩

/-- C4 witness: at the concrete game-over state, a tick without a retry
click is the identity, and a retry click performs the synchronous
restart. -/
theorem C4_restart_witness :
    updateTick testEnv (1 / 60) 5000 idleInput (constRng 0) restartCEState
      = restartCEState ∧
    updateTick testEnv (1 / 60) 5000 restartInput (constRng 0) restartCEState
      = restartGame testEnv 5000 restartCEState :=
  ⟨(C4_restart_amended testEnv (1 / 60) 5000 idleInput (constRng 0) restartCEState
      rfl).1 rfl,
   (C4_restart_amended testEnv (1 / 60) 5000 restartInput (constRng 0) restartCEState
      rfl).2.1 rfl⟩

/-! ## C1 — fixed-step determinism -/

/-- `spawnMeteoroid`'s position search, when the very first draw already
clears the safety radius: one draw, scaled to the canvas width. -/
theorem findSpawnX_ten (w sx sr : ℝ) (g : Rng)
    (h : ¬ |g.seq g.idx * w - sx| < sr) :
    findSpawnX w sx sr 10 g = (g.seq g.idx * w, { g with idx := g.idx + 1 }) := by
  rw [show (10 : ℕ) = 8 + 2 from rfl]
  simp only [findSpawnX, Rng.draw]
  rw [if_neg h]

/-- C1, as stated, fails: the tick consumes unseeded `Math.random()`
draws (spawn type, size, position, and meteoroid velocity), so two runs
with the identical input snapshot, identical tick duration and even the
identical wall-clock timestamp can produce different entity positions.
From `detC1State`, one tick at `t = 2000` spawns a meteoroid at
`x = 0.25 * 800 = 200` under one draw stream and at `x = 0.75 * 800 =
600` under another. -/
theorem C1_determinism_counterexample :
    (updateTick testEnv (1 / 60) 2000 idleInput (constRng (1 / 4))
        detC1State).meteoroids.map Meteoroid.x = [200] ∧
    (updateTick testEnv (1 / 60) 2000 idleInput (constRng (3 / 4))
        detC1State).meteoroids.map Meteoroid.x = [600] ∧
    ([200] : List ℝ) ≠ [600] := by
  refine ⟨?_, ?_, by norm_num⟩ <;>
  · norm_num [updateTick, runningTick, shipUpdatePhase, spawnPhase, entitySweepPhase,
      updateDifficulty, detC1State, initState, testEnv,
      testConfig, testShipCfg, testSpawnCfg, testPowerUpsCfg, testAdsCfg, offDifficultyCfg,
      testProjectileCfg, idleInput, basaltCfg, Ship.update, mkShip, meteoroidSpawnGate,
      calculateSpawnRate, spawnMeteoroid, selectMeteoruidType, selectScan, findSpawnX_ten,
      mkMeteoroid, Rng.draw, constRng, Meteoroid.update, Meteoroid.setSpeedMultiplier,
      Meteoroid.setHpBonus, Meteoroid.isOffScreen, sizeMap, handleCollisions,
      checkProjectileCollisions, checkPowerUpCollisions, checkProjectilePowerUpCollisions,
      sortPMByMeteoroidDesc, processPMList, processShipMeteoroid, processShipPowerUps,
      processPPUList, sortPPUDesc, Ship.canTakeDamage, particlesUpdate, spawnPowerUp,
      spawnAd, PowerUp.update, Ad.update, Projectile.update, min_def, max_def, abs_lt,
      Real.exp_zero, Real.sin_zero, Real.cos_zero, mkProjectilePool, ObjectPool.mk']

/-- C1 (amended): the tick is a pure function of the previous state, the
tick duration, the wall-clock timestamp, the input snapshot and the
random draws — so two independent runs of N ticks agree bit-for-bit
(entity positions included) once the per-tick random draws and
timestamps are fixed along with the input snapshots and tick duration. -/
theorem C1_determinism_amended (env : Env) (s : LoopState) (ins : List TickIn)
    (s1 s2 : LoopState) (h1 : RunTicks env s ins s1) (h2 : RunTicks env s ins s2) :
    s1 = s2 ∧
    s1.meteoroids.map (fun m => (m.x, m.y)) = s2.meteoroids.map (fun m => (m.x, m.y)) ∧
    s1.projectiles.map (fun p => (p.x, p.y)) = s2.projectiles.map (fun p => (p.x, p.y)) ∧
    (s1.ship.x, s1.ship.y) = (s2.ship.x, s2.ship.y) := by
  suffices h : s1 = s2 by
    subst h
    exact ⟨rfl, rfl, rfl, rfl⟩
  induction h1 generalizing s2 with
  | nil _ =>
    cases h2
    rfl
  | cons hstep _ ih =>
    cases h2 with
    | cons hstep2 hrest2 =>
      have he := hstep.symm.trans hstep2
      rw [← he] at hrest2
      exact ih _ hrest2

/-- C1 witness: two one-tick runs with the same tick input (snapshot,
duration, timestamp and draws) from the concrete state `detC1State` end
in the same state. -/
theorem C1_determinism_witness :
    updateTick testEnv (1 / 60) 2000 idleInput (constRng (1 / 4)) detC1State =
      updateTick testEnv (1 / 60) 2000 idleInput (constRng (1 / 4)) detC1State :=
  (C1_determinism_amended testEnv detC1State
    [{ dt := 1 / 60, now := 2000, input := idleInput, g := constRng (1 / 4) }] _ _
    (RunTicks.cons rfl (RunTicks.nil _))
    (RunTicks.cons rfl (RunTicks.nil _))).1

/-! ## C9 — the lives invariant

A chain of preservation lemmas, one per tick phase, feeding the
induction over reachable states. -/

/-- `Ship.update` never changes the life count. -/
theorem Ship.update_lives (shipCfg : ShipCfg) (dt mx my w h t : ℝ) (s : Ship)
    (pool : ObjectPool Projectile) :
    ((Ship.update shipCfg dt mx my w h t s pool).1).lives = s.lives := by
  simp only [Ship.update]
  repeat' split
  all_goals rfl

/-- `spawnMeteoroid` changes neither the ship nor the game-over flag. -/
theorem spawnMeteoroid_proj (env : Env) (s : LoopState) (g : Rng) :
    (spawnMeteoroid env s g).1.ship = s.ship ∧
    (spawnMeteoroid env s g).1.gameOver = s.gameOver := by
  simp only [spawnMeteoroid]
  repeat' split
  all_goals refine ⟨?_, ?_⟩ <;> first | rfl | trivial

/-- `spawnPowerUp` changes neither the ship nor the game-over flag. -/
theorem spawnPowerUp_proj (env : Env) (s : LoopState) (g : Rng) :
    (spawnPowerUp env s g).1.ship = s.ship ∧
    (spawnPowerUp env s g).1.gameOver = s.gameOver := by
  simp only [spawnPowerUp]
  repeat' split
  all_goals refine ⟨?_, ?_⟩ <;> first | rfl | trivial

/-- `spawnAd` changes neither the ship nor the game-over flag. -/
theorem spawnAd_proj (env : Env) (s : LoopState) (g : Rng) :
    (spawnAd env s g).1.ship = s.ship ∧
    (spawnAd env s g).1.gameOver = s.gameOver := by
  simp only [spawnAd]
  repeat' split
  all_goals exact ⟨rfl, rfl⟩

/-- A power-up effect never flips the game-over flag and can only leave
the life count unchanged or (below the configured max) raise it by one. -/
theorem applyPowerUpEffect_lives (env : Env) (ty : PowerUpType) (t : ℝ)
    (s : LoopState) :
    (applyPowerUpEffect env ty t s).gameOver = s.gameOver ∧
    ((applyPowerUpEffect env ty t s).ship.lives = s.ship.lives ∨
      (s.ship.lives < env.cfg.ship.lives.max ∧
        (applyPowerUpEffect env ty t s).ship.lives = s.ship.lives + 1)) := by
  unfold applyPowerUpEffect
  cases ty with
  | plusOneLife =>
    by_cases h : s.ship.lives < env.cfg.ship.lives.max
    · rw [if_pos h]
      exact ⟨rfl, Or.inr ⟨h, rfl⟩⟩
    · rw [if_neg h]
      exact ⟨rfl, Or.inl rfl⟩
  | rapidFire =>
    by_cases h : s.rapidFireLevel < env.cfg.powerUps.rapidFireMaxLevel
    · rw [if_pos h]
      exact ⟨rfl, Or.inl rfl⟩
    · rw [if_neg h]
      exact ⟨rfl, Or.inl rfl⟩
  | scoreMultiplier => exact ⟨rfl, Or.inl rfl⟩

/-- Projectile-meteoroid resolution of one record changes neither the
ship nor the game-over flag. -/
theorem processPMRecord_proj (env : Env) (r : PMRecord) (s : LoopState) (g : Rng) :
    (processPMRecord env r s g).1.ship = s.ship ∧
    (processPMRecord env r s g).1.gameOver = s.gameOver := by
  simp only [processPMRecord]
  repeat' split
  all_goals exact ⟨rfl, rfl⟩

/-- Projectile-meteoroid resolution of a whole batch changes neither the
ship nor the game-over flag. -/
theorem processPMList_proj (env : Env) (rs : List PMRecord) :
    ∀ (s : LoopState) (g : Rng),
      (processPMList env rs s g).1.ship = s.ship ∧
      (processPMList env rs s g).1.gameOver = s.gameOver := by
  induction rs with
  | nil => exact fun s g => ⟨rfl, rfl⟩
  | cons r rs ih =>
    intro s g
    have hmid := processPMRecord_proj env r s g
    have hrest := ih (processPMRecord env r s g).1 (processPMRecord env r s g).2
    have hfold : processPMList env (r :: rs) s g =
        processPMList env rs (processPMRecord env r s g).1
          (processPMRecord env r s g).2 := rfl
    rw [hfold]
    exact ⟨hrest.1.trans hmid.1, hrest.2.trans hmid.2⟩

/-- The ship-meteoroid block preserves the lives invariant on a running
state: damage only happens on a non-invincible ship holding at least one
life, and the game-over transition fires exactly when the last life is
lost. -/
theorem processShipMeteoroid_inv (env : Env) (t : ℝ) (s : LoopState) (g : Rng)
    (hg : s.gameOver = false) (h1 : 1 ≤ s.ship.lives)
    (hmax : s.ship.lives ≤ env.cfg.ship.lives.max) :
    0 ≤ (processShipMeteoroid env t s g).1.ship.lives ∧
    (processShipMeteoroid env t s g).1.ship.lives ≤ env.cfg.ship.lives.max ∧
    ((processShipMeteoroid env t s g).1.gameOver = false →
      1 ≤ (processShipMeteoroid env t s g).1.ship.lives) := by
  unfold processShipMeteoroid
  by_cases hc : s.ship.canTakeDamage = true
  · rw [if_pos hc]
    have hinv : s.ship.invincible = false := by
      unfold Ship.canTakeDamage at hc
      simpa using hc
    have htd : s.ship.takeDamage t =
        (decide (s.ship.lives - 1 ≤ 0),
          { s.ship with
            lives := s.ship.lives - 1
            invincible := true
            invincibilityEndTime := t + s.ship.invincibilityDuration }) := by
      unfold Ship.takeDamage
      rw [if_neg (by simp [hinv])]
    cases hcol : checkShipCollisions env.cfg.ship s.ship s.meteoroids with
    | nil => exact ⟨le_trans (by norm_num) h1, hmax, fun _ => h1⟩
    | cons collision rest =>
      simp only []
      cases hme : s.meteoroids[collision.meteoroidIndex]? with
      | none => exact ⟨le_trans (by norm_num) h1, hmax, fun _ => h1⟩
      | some m =>
        simp only [htd]
        repeat' split
        all_goals simp only []
        all_goals rename_i hdec
        all_goals simp only [decide_eq_true_eq, decide_eq_false_iff_not] at hdec
        · exact ⟨by omega, by omega, by simp⟩
        · exact ⟨by omega, by omega, fun _ => by omega⟩
  · rw [if_neg hc]
    exact ⟨le_trans (by norm_num) h1, hmax, fun _ => h1⟩

/-- A power-up effect preserves the lives invariant. -/
theorem applyPowerUpEffect_inv (env : Env) (ty : PowerUpType) (t : ℝ)
    (s : LoopState) (h : LivesInv env s) :
    LivesInv env (applyPowerUpEffect env ty t s) := by
  obtain ⟨h0, hm, hgo⟩ := h
  obtain ⟨hgov, hl⟩ := applyPowerUpEffect_lives env ty t s
  unfold LivesInv
  rw [hgov]
  rcases hl with hl | ⟨hlt, hl⟩ <;> rw [hl] <;>
    exact ⟨by omega, by omega, fun hg => by have := hgo hg; omega⟩

/-- Folding a lives-invariant-preserving step preserves the invariant. -/
theorem foldl_livesInv (env : Env) {α : Type} (f : LoopState → α → LoopState)
    (hf : ∀ s a, LivesInv env s → LivesInv env (f s a)) :
    ∀ (l : List α) (s : LoopState), LivesInv env s → LivesInv env (List.foldl f s l)
  | [], _, h => h
  | a :: l, s, h => foldl_livesInv env f hf l (f s a) (hf s a h)

/-- The ship-powerup resolution loop preserves the lives invariant. -/
theorem processShipPowerUps_inv (env : Env) (t : ℝ) (records : List PURecord)
    (s : LoopState) (h : LivesInv env s) :
    LivesInv env (processShipPowerUps env t records s) := by
  unfold processShipPowerUps
  refine foldl_livesInv env _ ?_ records.reverse s h
  intro s' r h'
  cases hpu : s'.powerUps[r.powerUpIndex]? with
  | none => exact h'
  | some powerUp =>
    have := applyPowerUpEffect_inv env powerUp.type t s' h'
    simp only [hpu]
    exact this

/-- One projectile-powerup record preserves the lives invariant. -/
theorem processPPURecord_inv (env : Env) (t : ℝ) (r : PPURecord) (s : LoopState)
    (h : LivesInv env s) : LivesInv env (processPPURecord env t r s) := by
  simp only [processPPURecord]
  repeat' split
  all_goals first
    | exact h
    | exact applyPowerUpEffect_inv env _ t s h

/-- The projectile-powerup resolution loop preserves the lives
invariant. -/
theorem processPPUList_inv (env : Env) (t : ℝ) (records : List PPURecord)
    (s : LoopState) (h : LivesInv env s) :
    LivesInv env (processPPUList env t records s) := by
  unfold processPPUList
  exact foldl_livesInv env _ (fun s' r h' => processPPURecord_inv env t r s' h')
    records s h

/-- `handleCollisions` preserves the lives invariant on a running
state. -/
theorem handleCollisions_inv (env : Env) (t : ℝ) (s : LoopState) (g : Rng)
    (hg : s.gameOver = false) (h : LivesInv env s) :
    LivesInv env (handleCollisions env t s g).1 := by
  have hshape : (handleCollisions env t s g).1 =
      processPPUList env t
        (sortPPUDesc (checkProjectilePowerUpCollisions s.projectiles s.powerUps))
        (processShipPowerUps env t (checkPowerUpCollisions env.cfg.ship s.ship s.powerUps)
          (processShipMeteoroid env t
            (processPMList env
              (sortPMByMeteoroidDesc (checkProjectileCollisions s.projectiles s.meteoroids))
              s g).1
            (processPMList env
              (sortPMByMeteoroidDesc (checkProjectileCollisions s.projectiles s.meteoroids))
              s g).2).1) := rfl
  rw [hshape]
  set pm := processPMList env
    (sortPMByMeteoroidDesc (checkProjectileCollisions s.projectiles s.meteoroids)) s g
    with hpmdef
  have hpm := processPMList_proj env
    (sortPMByMeteoroidDesc (checkProjectileCollisions s.projectiles s.meteoroids)) s g
  have hpmInv : LivesInv env pm.1 := by
    unfold LivesInv
    rw [hpmdef, hpm.1, hpm.2]
    exact h
  have hpmgo : pm.1.gameOver = false := by
    rw [hpmdef, hpm.2]
    exact hg
  have hsm := processShipMeteoroid_inv env t pm.1 pm.2 hpmgo
    (hpmInv.2.2 hpmgo) hpmInv.2.1
  exact processPPUList_inv env t _ _
    (processShipPowerUps_inv env t _ _ hsm)

/-- The ship-update phase changes neither the life count nor the
game-over flag. -/
theorem shipUpdatePhase_fields (env : Env) (dt t : ℝ) (input : InputState)
    (s : LoopState) :
    (shipUpdatePhase env dt t input s).ship.lives = s.ship.lives ∧
    (shipUpdatePhase env dt t input s).gameOver = s.gameOver :=
  ⟨Ship.update_lives env.cfg.ship dt input.moveX input.moveY env.canvasWidth
    env.canvasHeight t s.ship s.projectilePool, rfl⟩

/-- The spawn phase changes neither the ship nor the game-over flag. -/
theorem spawnPhase_fields (env : Env) (t : ℝ) (s : LoopState) (g : Rng) :
    (spawnPhase env t s g).1.ship = s.ship ∧
    (spawnPhase env t s g).1.gameOver = s.gameOver := by
  simp only [spawnPhase]
  repeat' split
  all_goals
    refine ⟨?_, ?_⟩ <;>
      simp only [(spawnMeteoroid_proj env _ _).1, (spawnMeteoroid_proj env _ _).2,
        (spawnPowerUp_proj env _ _).1, (spawnPowerUp_proj env _ _).2,
        (spawnAd_proj env _ _).1, (spawnAd_proj env _ _).2]

/-- The entity-sweep phase changes neither the ship nor the game-over
flag. -/
theorem entitySweepPhase_fields (env : Env) (dt t : ℝ) (s : LoopState) :
    (entitySweepPhase env dt t s).ship = s.ship ∧
    (entitySweepPhase env dt t s).gameOver = s.gameOver := by
  simp only [entitySweepPhase]
  repeat' split
  all_goals exact ⟨rfl, rfl⟩

/-- A running (not game-over, unpaused) tick preserves the lives
invariant. -/
theorem runningTick_inv (env : Env) (dt t : ℝ) (input : InputState)
    (s : LoopState) (g : Rng) (hg : s.gameOver = false) (h : LivesInv env s) :
    LivesInv env (runningTick env dt t input s g).1 := by
  have h1 := shipUpdatePhase_fields env dt t input s
  set s1 := shipUpdatePhase env dt t input s with hs1
  have h2 := spawnPhase_fields env t s1 g
  set sg2 := spawnPhase env t s1 g with hsg2
  have h3 := entitySweepPhase_fields env dt t sg2.1
  set s3 := entitySweepPhase env dt t sg2.1 with hs3
  have hgo3 : s3.gameOver = false := by
    rw [h3.2, h2.2, h1.2]
    exact hg
  have hInv3 : LivesInv env s3 := by
    unfold LivesInv
    rw [hgo3, h3.1, h2.1, h1.1]
    have hgo1 : s1.gameOver = false := by rw [h1.2]; exact hg
    exact ⟨h.1, h.2.1, fun _ => h.2.2 hg⟩
  have h4 := handleCollisions_inv env t s3 sg2.2 hgo3 hInv3
  have hshape : (runningTick env dt t input s g).1 =
      { (handleCollisions env t s3 sg2.2).1 with
        particles := particlesUpdate dt (handleCollisions env t s3 sg2.2).1.particles } :=
    rfl
  rw [hshape]
  exact h4

/-- One executed tick preserves the lives invariant (given a validated
configuration with `1 ≤ start ≤ max`). -/
theorem updateTick_inv (env : Env) (dt t : ℝ) (input : InputState) (g : Rng)
    (s : LoopState)
    (hstart1 : 1 ≤ env.cfg.ship.lives.start)
    (hstart2 : env.cfg.ship.lives.start ≤ env.cfg.ship.lives.max)
    (h : LivesInv env s) :
    LivesInv env (updateTick env dt t input g s) := by
  unfold updateTick
  by_cases hg : s.gameOver = true
  · rw [if_pos hg]
    split
    · have hrl : (restartGame env t s).ship.lives = env.cfg.ship.lives.start := rfl
      unfold LivesInv
      rw [hrl]
      exact ⟨by omega, hstart2, fun _ => hstart1⟩
    · exact h
  · rw [if_neg hg]
    have hg' : s.gameOver = false := by simpa using hg
    set s1 := if s.gameStartTime = 0 then { s with gameStartTime := t } else s with hs1
    have h1 : LivesInv env s1 ∧ s1.gameOver = false := by
      rw [hs1]
      split <;> exact ⟨h, hg'⟩
    have hd := updateDifficulty_proj env t s1
    set s2 := updateDifficulty env t s1 with hs2
    have h2 : LivesInv env s2 ∧ s2.gameOver = false := by
      refine ⟨?_, by rw [hs2, hd.2.2.2.2.2.2.2.2.2.2.2.1]; exact h1.2⟩
      unfold LivesInv
      rw [hs2, hd.2.2.2.2.2.1, hd.2.2.2.2.2.2.2.2.2.2.2.1]
      exact ⟨h1.1.1, h1.1.2.1, fun _ => h1.1.2.2 h1.2⟩
    split
    · exact h2.1
    · exact runningTick_inv env dt t input s2 g h2.2 h2.1

/-- C9: in every reachable simulation state (under a validated
configuration, `1 ≤ start ≤ max`), the ship's lives lie in
`[0, configured max]`; the instant lives reach 0 the game-over flag is
set; on a running state `takeDamage` decrements lives by at most 1 and
never below 0; and collecting a `+1life` power-up never raises lives
above the configured max. -/
theorem C9_lives_invariant (env : Env)
    (hstart1 : 1 ≤ env.cfg.ship.lives.start)
    (hstart2 : env.cfg.ship.lives.start ≤ env.cfg.ship.lives.max)
    (s : LoopState) (hs : Reachable env s) :
    (0 ≤ s.ship.lives ∧ s.ship.lives ≤ env.cfg.ship.lives.max) ∧
    (s.ship.lives = 0 → s.gameOver = true) ∧
    (s.gameOver = false → ∀ t : ℝ,
      0 ≤ (s.ship.takeDamage t).2.lives ∧
      s.ship.lives - 1 ≤ (s.ship.takeDamage t).2.lives ∧
      (s.ship.takeDamage t).2.lives ≤ s.ship.lives) ∧
    (∀ t : ℝ, (applyPowerUpEffect env PowerUpType.plusOneLife t s).ship.lives ≤
      env.cfg.ship.lives.max) := by
  have hInv : LivesInv env s := by
    induction hs with
    | init =>
      have hil : (initState env).ship.lives = env.cfg.ship.lives.start := rfl
      unfold LivesInv
      rw [hil]
      exact ⟨by omega, hstart2, fun _ => hstart1⟩
    | step dt t input g hr ih =>
      exact updateTick_inv env dt t input g _ hstart1 hstart2 ih
  obtain ⟨h0, hm, hgo⟩ := hInv
  refine ⟨⟨h0, hm⟩, ?_, ?_, ?_⟩
  · intro hz
    by_cases hb : s.gameOver = true
    · exact hb
    · have := hgo (by simpa using hb)
      omega
  · intro hg t
    have h1 := hgo hg
    by_cases hi : s.ship.invincible = true
    · have hred : (s.ship.takeDamage t).2 = s.ship := by
        unfold Ship.takeDamage
        rw [if_pos hi]
      rw [hred]
      exact ⟨by omega, by omega, le_refl _⟩
    · have hred : (s.ship.takeDamage t).2.lives = s.ship.lives - 1 := by
        unfold Ship.takeDamage
        rw [if_neg hi]
      rw [hred]
      exact ⟨by omega, by omega, by omega⟩
  · intro t
    obtain ⟨-, hl⟩ := applyPowerUpEffect_lives env PowerUpType.plusOneLife t s
    rcases hl with hl | ⟨hlt, hl⟩ <;> omega

/-- C9 witness: the invariant at the reachable initial state of the
concrete 3-of-5-lives configuration. -/
theorem C9_lives_witness :
    (0 ≤ (initState testEnv).ship.lives ∧
      (initState testEnv).ship.lives ≤ testEnv.cfg.ship.lives.max) ∧
    ((initState testEnv).ship.lives = 0 → (initState testEnv).gameOver = true) :=
  ⟨(C9_lives_invariant testEnv
      (by norm_num [testEnv, testConfig, testShipCfg])
      (by norm_num [testEnv, testConfig, testShipCfg])
      (initState testEnv) Reachable.init).1,
   (C9_lives_invariant testEnv
      (by norm_num [testEnv, testConfig, testShipCfg])
      (by norm_num [testEnv, testConfig, testShipCfg])
      (initState testEnv) Reachable.init).2.1⟩

end

end Spaceship
